import Mathlib

/-
Verification of the RVVM execution core against its specification.

The development shallowly embeds the C sources:
  * `riscv32.c`   - the rv32 hart core: trap delivery, interrupt entry,
    the outer run loop vector computation and the hot interpreter loop;
  * `riscv_csr.c` - the CSR file: read/modify-write dispatch with masks
    and side effects;
  * `rvjit.c`     - the JIT block registry, dirty-page tracking and
    cache flush;
  * `main.c`      - argument parsing and process exit codes.

Machine integers are embedded as `Nat` with explicit masking where the C
code truncates.  Arrays indexed by privilege level are embedded as
functions `Nat -> Nat`; hashmaps as association lists.
-/

namespace RVVM

/-! ## Bit helpers (bit_ops.h)

`bit_mask`, `bit_cut`, `bit_replace` follow the source helpers; the
rv32 core names them `cut_bits` / `replace_bits` with 32-bit operands,
the CSR file uses 64-bit `maxlen_t` operands. -/

def M32 : Nat := 0xFFFFFFFF

def M64 : Nat := 0xFFFFFFFFFFFFFFFF

/-- Complement of a value within a 32-bit word. -/
def comp32 (x : Nat) : Nat := M32 ^^^ (x &&& M32)

/-- Complement of a value within a 64-bit word. -/
def comp64 (x : Nat) : Nat := M64 ^^^ (x &&& M64)

/-- bit_mask(count): count low bits set. -/
def bit_mask (count : Nat) : Nat := (1 <<< count) - 1

/-- bit_cut(value, start, size): size bits of value starting at start. -/
def bit_cut (value start size : Nat) : Nat := (value >>> start) &&& bit_mask size

/-- bit_replace(value, start, size, replacement) over 64-bit words. -/
def bit_replace (value start size repl : Nat) : Nat :=
  (value &&& comp64 (bit_mask size <<< start)) ||| ((repl &&& bit_mask size) <<< start)

/-- cut_bits from the rv32 core (32-bit operands). -/
def cut_bits (value start size : Nat) : Nat := (value >>> start) &&& bit_mask size

/-- replace_bits from the rv32 core (32-bit operands). -/
def replace_bits (value start size repl : Nat) : Nat :=
  (value &&& comp32 (bit_mask size <<< start)) ||| ((repl &&& bit_mask size) <<< start)

/-! ## The rv32 hart core (riscv32.c)

State of a `riscv32_vm_state_t` restricted to the fields the embedded
functions touch.  `registers` has the PC at index 32 (`REGISTER_PC`);
per-privilege CSR arrays are functions from the privilege index
(USER = 0, SUPERVISOR = 1, HYPERVISOR = 2, MACHINE = 3). -/

def PRIVILEGE_USER : Nat := 0

def PRIVILEGE_SUPERVISOR : Nat := 1

def PRIVILEGE_HYPERVISOR : Nat := 2

def PRIVILEGE_MACHINE : Nat := 3

def REGISTER_PC : Nat := 32

def INTERRUPT_MASK : Nat := 0x80000000

structure Rv32Csr where
  status : Nat
  /-- Exception delegation words, one per privilege level. -/
  edeleg : Nat → Nat
  /-- Interrupt delegation words.  Modelled from the spec: the CSR bank
  carries an `ideleg` array alongside `edeleg`; `riscv32.h` is not under
  src.  The functions embedded below never read it. -/
  ideleg : Nat → Nat
  tvec : Nat → Nat
  epc : Nat → Nat
  cause : Nat → Nat
  tval : Nat → Nat
  deriving Inhabited

structure Rv32State where
  registers : Nat → Nat
  csr : Rv32Csr
  priv_mode : Nat
  wait_event : Nat
  deriving Inhabited

/-- Pointwise update of a function-embedded array. -/
def updF (f : Nat → Nat) (i v : Nat) : Nat → Nat :=
  fun j => if j = i then v else f j

/-- riscv32i_read_register_u: plain register read. -/
def riscv32i_read_register_u (s : Rv32State) (reg : Nat) : Nat :=
  s.registers reg

/-- riscv32i_write_register_u: plain register write (32-bit registers). -/
def riscv32i_write_register_u (s : Rv32State) (reg v : Nat) : Rv32State :=
  { s with registers := updF s.registers reg (v % 2 ^ 32) }

/-- riscv32_break: clear wait_event. -/
def riscv32_break (s : Rv32State) : Rv32State :=
  { s with wait_event := 0 }

/-- The delegation walk of riscv32_trap:
`for (priv = MACHINE; priv > vm->priv_mode; --priv)
   if ((vm->csr.edeleg[priv] & (1 << cause)) == 0) break;`
The C shift `1 << cause` runs on a 32-bit operand with an untrusted
count; the generated code shifts by `cause % 32`, which is what the
emulator relies on when the cause word carries the interrupt high bit. -/
def riscv32_trap_target_go (edeleg : Nat → Nat) (m cause : Nat) : Nat → Nat
  | 0 => 0
  | p + 1 =>
    if p + 1 ≤ m then p + 1
    else if edeleg (p + 1) &&& (1 <<< (cause % 32)) = 0 then p + 1
    else riscv32_trap_target_go edeleg m cause p

def riscv32_trap_target (s : Rv32State) (cause : Nat) : Nat :=
  riscv32_trap_target_go s.csr.edeleg s.priv_mode cause PRIVILEGE_MACHINE

/-- riscv32_trap(vm, cause, tval). -/
def riscv32_trap (s : Rv32State) (cause tval : Nat) : Rv32State :=
  let priv := riscv32_trap_target s cause
  let pc := riscv32i_read_register_u s REGISTER_PC
  let csr := s.csr
  let csr := { csr with
    epc := updF csr.epc priv pc
    cause := updF csr.cause priv cause
    tval := updF csr.tval priv tval }
  let csr :=
    if priv = PRIVILEGE_MACHINE then
      let st := replace_bits csr.status 11 2 s.priv_mode
      let st := replace_bits st 7 1 (cut_bits st 3 1)
      { csr with status := st &&& 0xFFFFFFF7 }
    else if priv = PRIVILEGE_SUPERVISOR then
      let st := replace_bits csr.status 8 1 s.priv_mode
      let st := replace_bits st 5 1 (cut_bits st 1 1)
      { csr with status := st &&& 0xFFFFFFFD }
    else csr
  riscv32_break { s with csr := csr, priv_mode := priv }

/-- riscv32_interrupt(vm, cause) = riscv32_trap(vm, INTERRUPT_MASK | cause, 0). -/
def riscv32_interrupt (s : Rv32State) (cause : Nat) : Rv32State :=
  riscv32_trap s (INTERRUPT_MASK ||| cause) 0

/-- The PC update performed by riscv32_run after the hot loop exits:
vectored when the recorded cause has the interrupt bit and tvec bit 0 is
set, direct otherwise.  The C computes `(tvec & ~3) + (cause << 2)` with
a 32-bit `cause` (the shift truncates) and stores it into the 32-bit PC
register. -/
def riscv32_run_vector (s : Rv32State) : Rv32State :=
  let cause := s.csr.cause s.priv_mode
  let tvec := s.csr.tvec s.priv_mode
  if cause &&& INTERRUPT_MASK ≠ 0 ∧ tvec &&& 1 ≠ 0 then
    riscv32i_write_register_u s REGISTER_PC ((tvec &&& comp32 3) + ((cause <<< 2) % 2 ^ 32))
  else
    riscv32i_write_register_u s REGISTER_PC (tvec &&& comp32 3)

/-! ## Bit-level lemmas for the helpers -/

theorem bit_mask_eq (w : Nat) : bit_mask w = 2 ^ w - 1 := by
  simp [bit_mask, Nat.shiftLeft_eq]

theorem testBit_bit_mask (w i : Nat) : (bit_mask w).testBit i = decide (i < w) := by
  rw [bit_mask_eq]; exact Nat.testBit_two_pow_sub_one w i

theorem M32_eq : M32 = bit_mask 32 := by decide

theorem testBit_M32 (i : Nat) : M32.testBit i = decide (i < 32) := by
  rw [M32_eq]; exact testBit_bit_mask 32 i

theorem testBit_comp32 (x i : Nat) :
    (comp32 x).testBit i = (decide (i < 32) && !x.testBit i) := by
  simp only [comp32, Nat.testBit_xor, Nat.testBit_and, testBit_M32]
  by_cases h : i < 32 <;> cases hx : x.testBit i <;> simp [h]

theorem testBit_cut_bits (v s w i : Nat) :
    (cut_bits v s w).testBit i = (v.testBit (s + i) && decide (i < w)) := by
  simp [cut_bits, Nat.testBit_and, Nat.testBit_shiftRight, testBit_bit_mask]

theorem testBit_replace_bits_in (v s w r i : Nat) (h1 : s ≤ i) (h2 : i < s + w) :
    (replace_bits v s w r).testBit i = r.testBit (i - s) := by
  have hw : i - s < w := by omega
  simp [replace_bits, Nat.testBit_or, Nat.testBit_and, testBit_comp32,
    Nat.testBit_shiftLeft, testBit_bit_mask, h1, hw]

theorem testBit_replace_bits_out (v s w r i : Nat) (h : i < s ∨ s + w ≤ i) :
    (replace_bits v s w r).testBit i = (v.testBit i && decide (i < 32)) := by
  rcases h with h | h
  · have hs : ¬ s ≤ i := by omega
    simp [replace_bits, Nat.testBit_or, Nat.testBit_and, testBit_comp32,
      Nat.testBit_shiftLeft, testBit_bit_mask, hs]
  · have hs : s ≤ i := by omega
    have hw : ¬ i - s < w := by omega
    simp [replace_bits, Nat.testBit_or, Nat.testBit_and, testBit_comp32,
      Nat.testBit_shiftLeft, testBit_bit_mask, hs, hw]

theorem testBit_lit_F7 (i : Nat) :
    (0xFFFFFFF7 : Nat).testBit i = (decide (i < 32) && !decide (3 = i)) := by
  have h : (0xFFFFFFF7 : Nat) = comp32 (2 ^ 3) := by decide
  rw [h, testBit_comp32, Nat.testBit_two_pow]

theorem testBit_lit_FD (i : Nat) :
    (0xFFFFFFFD : Nat).testBit i = (decide (i < 32) && !decide (1 = i)) := by
  have h : (0xFFFFFFFD : Nat) = comp32 (2 ^ 1) := by decide
  rw [h, testBit_comp32, Nat.testBit_two_pow]

/-! ## Properties of the delegation walk -/

theorem riscv32_trap_target_go_ge (ed : Nat → Nat) (m cause p : Nat) (h : m ≤ p) :
    m ≤ riscv32_trap_target_go ed m cause p := by
  induction p with
  | zero => simpa [riscv32_trap_target_go] using h
  | succ q ih =>
    simp only [riscv32_trap_target_go]
    split_ifs with h1 h2
    · omega
    · omega
    · exact ih (by omega)

theorem riscv32_trap_target_go_le (ed : Nat → Nat) (m cause p : Nat) :
    riscv32_trap_target_go ed m cause p ≤ p := by
  induction p with
  | zero => simp [riscv32_trap_target_go]
  | succ q ih =>
    simp only [riscv32_trap_target_go]
    split_ifs <;> omega

theorem riscv32_trap_target_ge (s : Rv32State) (cause : Nat) (hm : s.priv_mode ≤ 3) :
    s.priv_mode ≤ riscv32_trap_target s cause :=
  riscv32_trap_target_go_ge _ _ _ _ hm

theorem riscv32_trap_target_le (s : Rv32State) (cause : Nat) :
    riscv32_trap_target s cause ≤ 3 :=
  riscv32_trap_target_go_le _ _ _ _

/-! ## Status-register facts for trap entry -/

theorem trapStatusM_mpp (st pm : Nat) (h : pm < 4) :
    cut_bits ((replace_bits (replace_bits st 11 2 pm) 7 1
      (cut_bits (replace_bits st 11 2 pm) 3 1)) &&& 0xFFFFFFF7) 11 2 = pm := by
  apply Nat.eq_of_testBit_eq
  intro i
  rw [testBit_cut_bits]
  by_cases hi : i < 2
  · interval_cases i <;>
      simp +decide [Nat.testBit_and, testBit_lit_F7, testBit_replace_bits_in,
        testBit_replace_bits_out]
  · have h2 : pm < 2 ^ i :=
      lt_of_lt_of_le h (le_trans (by norm_num : (4:Nat) ≤ 2 ^ 2)
        (Nat.pow_le_pow_right (by norm_num) (by omega)))
    simp [hi, Nat.testBit_lt_two_pow h2]

theorem trapStatusM_mpie (st pm : Nat) :
    cut_bits ((replace_bits (replace_bits st 11 2 pm) 7 1
      (cut_bits (replace_bits st 11 2 pm) 3 1)) &&& 0xFFFFFFF7) 7 1 =
    cut_bits st 3 1 := by
  apply Nat.eq_of_testBit_eq
  intro i
  rw [testBit_cut_bits, testBit_cut_bits]
  by_cases hi : i < 1
  · interval_cases i
    simp +decide [-Nat.testBit_zero, Nat.testBit_and, testBit_lit_F7,
      testBit_replace_bits_in, testBit_replace_bits_out, testBit_cut_bits]
  · simp [hi]

theorem trapStatusM_mie (st pm : Nat) :
    cut_bits ((replace_bits (replace_bits st 11 2 pm) 7 1
      (cut_bits (replace_bits st 11 2 pm) 3 1)) &&& 0xFFFFFFF7) 3 1 = 0 := by
  apply Nat.eq_of_testBit_eq
  intro i
  rw [testBit_cut_bits]
  by_cases hi : i < 1
  · interval_cases i
    simp +decide [Nat.testBit_and, testBit_lit_F7]
  · simp [hi]

theorem trapStatusS_spp (st pm : Nat) (h : pm < 2) :
    cut_bits ((replace_bits (replace_bits st 8 1 pm) 5 1
      (cut_bits (replace_bits st 8 1 pm) 1 1)) &&& 0xFFFFFFFD) 8 1 = pm := by
  apply Nat.eq_of_testBit_eq
  intro i
  rw [testBit_cut_bits]
  by_cases hi : i < 1
  · interval_cases i
    simp +decide [Nat.testBit_and, testBit_lit_FD, testBit_replace_bits_in,
      testBit_replace_bits_out]
  · have h2 : pm < 2 ^ i :=
      lt_of_lt_of_le h (le_trans (by norm_num : (2:Nat) ≤ 2 ^ 1)
        (Nat.pow_le_pow_right (by norm_num) (by omega)))
    simp [hi, Nat.testBit_lt_two_pow h2]

theorem trapStatusS_spie (st pm : Nat) :
    cut_bits ((replace_bits (replace_bits st 8 1 pm) 5 1
      (cut_bits (replace_bits st 8 1 pm) 1 1)) &&& 0xFFFFFFFD) 5 1 =
    cut_bits st 1 1 := by
  apply Nat.eq_of_testBit_eq
  intro i
  rw [testBit_cut_bits, testBit_cut_bits]
  by_cases hi : i < 1
  · interval_cases i
    simp +decide [-Nat.testBit_zero, Nat.testBit_and, testBit_lit_FD,
      testBit_replace_bits_in, testBit_replace_bits_out, testBit_cut_bits]
  · simp [hi]

theorem trapStatusS_sie (st pm : Nat) :
    cut_bits ((replace_bits (replace_bits st 8 1 pm) 5 1
      (cut_bits (replace_bits st 8 1 pm) 1 1)) &&& 0xFFFFFFFD) 1 1 = 0 := by
  apply Nat.eq_of_testBit_eq
  intro i
  rw [testBit_cut_bits]
  by_cases hi : i < 1
  · interval_cases i
    simp +decide [Nat.testBit_and, testBit_lit_FD]
  · simp [hi]

/-! ## Claim C2: trap delivery -/

/-- C2: after riscv32_trap(hart, cause, tval) delivers to target privilege
T, epc[T] holds the pre-trap PC, cause[T] = cause, tval[T] = tval, the xPP
field of status (MPP at bits 11..12 for MACHINE, SPP at bit 8 for
SUPERVISOR) holds the pre-trap privilege, xPIE holds the pre-trap xIE,
xIE is cleared, the privilege becomes T and wait_event is 0. -/
theorem riscv32_trap_delivers (s : Rv32State) (cause tval : Nat)
    (hm : s.priv_mode ≤ 3) :
    (riscv32_trap s cause tval).csr.epc (riscv32_trap_target s cause) =
      s.registers REGISTER_PC ∧
    (riscv32_trap s cause tval).csr.cause (riscv32_trap_target s cause) = cause ∧
    (riscv32_trap s cause tval).csr.tval (riscv32_trap_target s cause) = tval ∧
    (riscv32_trap s cause tval).priv_mode = riscv32_trap_target s cause ∧
    (riscv32_trap s cause tval).wait_event = 0 ∧
    (riscv32_trap_target s cause = PRIVILEGE_MACHINE →
      cut_bits (riscv32_trap s cause tval).csr.status 11 2 = s.priv_mode ∧
      cut_bits (riscv32_trap s cause tval).csr.status 7 1 =
        cut_bits s.csr.status 3 1 ∧
      cut_bits (riscv32_trap s cause tval).csr.status 3 1 = 0) ∧
    (riscv32_trap_target s cause = PRIVILEGE_SUPERVISOR →
      cut_bits (riscv32_trap s cause tval).csr.status 8 1 = s.priv_mode ∧
      cut_bits (riscv32_trap s cause tval).csr.status 5 1 =
        cut_bits s.csr.status 1 1 ∧
      cut_bits (riscv32_trap s cause tval).csr.status 1 1 = 0) := by
  have hge := riscv32_trap_target_ge s cause hm
  unfold riscv32_trap riscv32_break riscv32i_read_register_u
  dsimp only
  split_ifs with hM hS
  · refine ⟨by simp [updF], by simp [updF], by simp [updF], rfl, rfl, ?_, ?_⟩
    · intro _
      exact ⟨trapStatusM_mpp _ _ (by omega), trapStatusM_mpie _ _,
        trapStatusM_mie _ _⟩
    · intro hc
      rw [hM] at hc
      simp [PRIVILEGE_MACHINE, PRIVILEGE_SUPERVISOR] at hc
  · refine ⟨by simp [updF], by simp [updF], by simp [updF], rfl, rfl, ?_, ?_⟩
    · intro hc
      exact absurd hc hM
    · intro _
      have hp2 : s.priv_mode < 2 := by
        rw [hS] at hge
        simp [PRIVILEGE_SUPERVISOR] at hge
        omega
      exact ⟨trapStatusS_spp _ _ hp2, trapStatusS_spie _ _, trapStatusS_sie _ _⟩
  · exact ⟨by simp [updF], by simp [updF], by simp [updF], rfl, rfl,
      fun hc => absurd hc hM, fun hc => absurd hc hS⟩

/-- C2 witness: a concrete machine-mode trap from user mode. -/
def c2State : Rv32State :=
  { registers := fun r => if r = 32 then 0x2000 else 0
    csr :=
      { status := 0x8
        edeleg := fun _ => 0
        ideleg := fun _ => 0
        tvec := fun _ => 0
        epc := fun _ => 0
        cause := fun _ => 0
        tval := fun _ => 0 }
    priv_mode := 0
    wait_event := 1 }

theorem riscv32_trap_delivers_witness :
    c2State.priv_mode ≤ 3 ∧
    ((riscv32_trap c2State 2 0x55).csr.epc (riscv32_trap_target c2State 2) =
        c2State.registers REGISTER_PC ∧
      (riscv32_trap c2State 2 0x55).csr.cause (riscv32_trap_target c2State 2) = 2 ∧
      (riscv32_trap c2State 2 0x55).csr.tval (riscv32_trap_target c2State 2) = 0x55 ∧
      (riscv32_trap c2State 2 0x55).priv_mode = riscv32_trap_target c2State 2 ∧
      (riscv32_trap c2State 2 0x55).wait_event = 0 ∧
      (riscv32_trap_target c2State 2 = PRIVILEGE_MACHINE →
        cut_bits (riscv32_trap c2State 2 0x55).csr.status 11 2 = c2State.priv_mode ∧
        cut_bits (riscv32_trap c2State 2 0x55).csr.status 7 1 =
          cut_bits c2State.csr.status 3 1 ∧
        cut_bits (riscv32_trap c2State 2 0x55).csr.status 3 1 = 0) ∧
      (riscv32_trap_target c2State 2 = PRIVILEGE_SUPERVISOR →
        cut_bits (riscv32_trap c2State 2 0x55).csr.status 8 1 = c2State.priv_mode ∧
        cut_bits (riscv32_trap c2State 2 0x55).csr.status 5 1 =
          cut_bits c2State.csr.status 1 1 ∧
        cut_bits (riscv32_trap c2State 2 0x55).csr.status 1 1 = 0)) :=
  ⟨by decide, riscv32_trap_delivers c2State 2 0x55 (by decide)⟩

/-! ## Claim C3: target privilege selection -/

/-- Modelled from the spec: the target-selection rule exactly as the
claim states it, consulting `ideleg` instead of `edeleg` when the cause
is an interrupt, with `causeBit` the cause bit-index (without the
interrupt high bit). -/
def spec_trap_target_go (deleg : Nat → Nat) (m b : Nat) : Nat → Nat
  | 0 => 0
  | p + 1 =>
    if p + 1 ≤ m then p + 1
    else if deleg (p + 1) &&& (1 <<< b) = 0 then p + 1
    else spec_trap_target_go deleg m b p

def spec_trap_target (s : Rv32State) (isInterrupt : Bool) (causeBit : Nat) : Nat :=
  spec_trap_target_go (if isInterrupt then s.csr.ideleg else s.csr.edeleg)
    s.priv_mode causeBit PRIVILEGE_MACHINE

/-- C3 counterexample state: user mode, `edeleg` clear everywhere,
`ideleg` delegating interrupt cause 1 down to supervisor. -/
def c3State : Rv32State :=
  { registers := fun _ => 0
    csr :=
      { status := 0
        edeleg := fun _ => 0
        ideleg := fun p => if 2 ≤ p then 2 else 0
        tvec := fun _ => 0
        epc := fun _ => 0
        cause := fun _ => 0
        tval := fun _ => 0 }
    priv_mode := 0
    wait_event := 1 }

/-- C3 counterexample: for the supervisor software interrupt (cause
bit-index 1, trap cause word 0x80000001) the claim predicts delivery at
SUPERVISOR (ideleg delegates past MACHINE and HYPERVISOR, stops at
SUPERVISOR), but riscv32_trap consults edeleg even for interrupts and
delivers at MACHINE. -/
theorem riscv32_trap_ideleg_cex :
    spec_trap_target c3State true 1 = PRIVILEGE_SUPERVISOR ∧
    (riscv32_trap c3State 0x80000001 0).priv_mode = PRIVILEGE_MACHINE ∧
    PRIVILEGE_MACHINE ≠ PRIVILEGE_SUPERVISOR := by
  refine ⟨by decide, ?_, by decide⟩
  decide

/-- C3 (amended): the target privilege is the lowest p with
MACHINE >= p >= current mode m such that every privilege q with
MACHINE >= q > p has delegation bit `cause mod 32` of edeleg[q] set;
edeleg is used for interrupts as well (ideleg is never consulted), the
bit index being taken from the full cause word modulo 32. -/
theorem riscv32_trap_target_least (s : Rv32State) (cause : Nat)
    (hm : s.priv_mode ≤ 3) :
    s.priv_mode ≤ riscv32_trap_target s cause ∧
    riscv32_trap_target s cause ≤ 3 ∧
    (∀ q, riscv32_trap_target s cause < q → q ≤ 3 →
      s.csr.edeleg q &&& (1 <<< (cause % 32)) ≠ 0) ∧
    (∀ p, s.priv_mode ≤ p →
      (∀ q, p < q → q ≤ 3 → s.csr.edeleg q &&& (1 <<< (cause % 32)) ≠ 0) →
      riscv32_trap_target s cause ≤ p) := by
  refine ⟨riscv32_trap_target_ge s cause hm, riscv32_trap_target_le s cause, ?_, ?_⟩
  all_goals
    simp only [riscv32_trap_target, PRIVILEGE_MACHINE, riscv32_trap_target_go]
    split_ifs with h1 h2 h3 h4 h5 h6 <;>
      first
      | (intro q hq1 hq2; omega)
      | (intro q hq1 hq2
         interval_cases q <;> assumption)
      | (intro p hp hall
         by_contra hlt
         push_neg at hlt
         first
         | exact hall 3 (by omega) (by omega) h2
         | exact hall 2 (by omega) (by omega) h4
         | exact hall 1 (by omega) (by omega) h6)

/-- C3 amended-claim witness: at the counterexample state the walk stops
at MACHINE and the least-p characterization holds. -/
theorem riscv32_trap_target_least_witness :
    c3State.priv_mode ≤ 3 ∧
    (c3State.priv_mode ≤ riscv32_trap_target c3State 0x80000001 ∧
      riscv32_trap_target c3State 0x80000001 ≤ 3 ∧
      (∀ q, riscv32_trap_target c3State 0x80000001 < q → q ≤ 3 →
        c3State.csr.edeleg q &&& (1 <<< (0x80000001 % 32)) ≠ 0) ∧
      (∀ p, c3State.priv_mode ≤ p →
        (∀ q, p < q → q ≤ 3 →
          c3State.csr.edeleg q &&& (1 <<< (0x80000001 % 32)) ≠ 0) →
        riscv32_trap_target c3State 0x80000001 ≤ p)) :=
  ⟨by decide, riscv32_trap_target_least c3State 0x80000001 (by decide)⟩

/-! ## Claim C4: trap vector computation -/

/-- C4 scenario state: machine mode, mtvec = 0x1000 or-ed with 1
(vectored), MIE and MTIE set in status/ie as far as this core models
them. -/
def c4State : Rv32State :=
  { registers := fun _ => 0
    csr :=
      { status := 0x8
        edeleg := fun _ => 0
        ideleg := fun _ => 0
        tvec := fun p => if p = 3 then 0x1001 else 0
        epc := fun _ => 0
        cause := fun _ => 0
        tval := fun _ => 0 }
    priv_mode := 3
    wait_event := 1 }

/-- C4: after an event the run loop sets PC to
(tvec[T] and not 3) + (cause[T] shifted left by 2), truncated to the
32-bit register, when the recorded cause has the interrupt high bit and
tvec[T] bit 0 is set, and to tvec[T] with the low two bits cleared
otherwise; with mtvec = 0x1000 or 1 and a machine timer interrupt
(cause 7) the PC becomes 0x101C and mcause reads 0x80000007. -/
theorem riscv32_run_vector_pc :
    (∀ s : Rv32State,
      (riscv32_run_vector s).registers REGISTER_PC =
        if s.csr.cause s.priv_mode &&& INTERRUPT_MASK ≠ 0 ∧
            s.csr.tvec s.priv_mode &&& 1 ≠ 0 then
          ((s.csr.tvec s.priv_mode &&& comp32 3) +
            (s.csr.cause s.priv_mode <<< 2)) % 2 ^ 32
        else s.csr.tvec s.priv_mode &&& comp32 3) ∧
    (riscv32_interrupt c4State 7).csr.cause PRIVILEGE_MACHINE = 0x80000007 ∧
    (riscv32_run_vector (riscv32_interrupt c4State 7)).registers REGISTER_PC =
      0x101C := by
  refine ⟨?_, by decide, by decide⟩
  intro s
  unfold riscv32_run_vector riscv32i_write_register_u
  dsimp only
  split_ifs with h
  · simp [updF]
  · simp [updF]
    have hb : s.csr.tvec s.priv_mode &&& comp32 3 ≤ comp32 3 := Nat.and_le_right
    have hc : comp32 3 < 2 ^ 32 := by decide
    omega

/-! ## Claim C8: register 0 in the interpreter loop -/

/-- riscv32_exec_instruction, with the instruction implementations as
parameters: riscv32i.c / riscv32c.c are not under src, so the 32-bit and
16-bit executors em32 / em16 are explicit state transformers.  An
encoding whose low two bits are not both set is compressed (PC += 2),
otherwise it is a full encoding (PC += 4), as in the source. -/
def riscv32_exec_instruction (em32 em16 : Nat → Rv32State → Rv32State)
    (s : Rv32State) (instruction : Nat) : Rv32State :=
  if instruction &&& 3 ≠ 3 then
    let s2 := em16 instruction s
    riscv32i_write_register_u s2 REGISTER_PC (s2.registers REGISTER_PC + 2)
  else
    let s2 := em32 instruction s
    riscv32i_write_register_u s2 REGISTER_PC (s2.registers REGISTER_PC + 4)

/-- The hot loop of riscv32_run_till_event, fuel-bounded.  `fetch`
abstracts the TLB hit path and riscv32_mmu_op (riscv32_mmu.c is not
under src): it yields the fetched instruction word, or none when the
MMU raised a trap, together with the possibly updated state (TLB
refill, trap entry).  Each iteration zeroes register 0 first, exactly
as the source loop does. -/
def riscv32_run_till_event (em32 em16 : Nat → Rv32State → Rv32State)
    (fetch : Rv32State → Option Nat × Rv32State) :
    Nat → Rv32State → Rv32State
  | 0, s => s
  | fuel + 1, s =>
    if s.wait_event ≠ 0 then
      let s1 := riscv32i_write_register_u s 0 0
      match fetch s1 with
      | (some instruction, s2) =>
        riscv32_run_till_event em32 em16 fetch fuel
          (riscv32_exec_instruction em32 em16 s2 instruction)
      | (none, s2) => riscv32_run_till_event em32 em16 fetch fuel s2
    else s

/-- C8: the hot loop zeroes register 0 at the top of every iteration,
before the fetch and before any instruction executes, so no instruction
can ever observe a nonzero register 0: replacing what the executors do
on states whose register 0 is nonzero by arbitrary junk does not change
the run.  The hypothesis says the fetch path preserves register 0 (the
MMU walker never writes integer registers). -/
theorem riscv32_run_till_event_x0 (em32 em16 junk32 junk16 : Nat → Rv32State → Rv32State)
    (fetch : Rv32State → Option Nat × Rv32State)
    (hf : ∀ s, ((fetch s).2).registers 0 = s.registers 0)
    (fuel : Nat) (s : Rv32State) :
    riscv32_run_till_event em32 em16 fetch fuel s =
    riscv32_run_till_event
      (fun i t => if t.registers 0 = 0 then em32 i t else junk32 i t)
      (fun i t => if t.registers 0 = 0 then em16 i t else junk16 i t)
      fetch fuel s := by
  induction fuel generalizing s with
  | zero => rfl
  | succ n ih =>
    simp only [riscv32_run_till_event]
    split_ifs with hw
    · have hx1 : (riscv32i_write_register_u s 0 0).registers 0 = 0 := by
        simp [riscv32i_write_register_u, updF]
      rcases hfe : fetch (riscv32i_write_register_u s 0 0) with ⟨oi, s2⟩
      have hx2 : s2.registers 0 = 0 := by
        have h := hf (riscv32i_write_register_u s 0 0)
        rw [hfe] at h
        rw [h, hx1]
      cases oi with
      | none => exact ih s2
      | some instruction =>
        have hex : riscv32_exec_instruction
            (fun i t => if t.registers 0 = 0 then em32 i t else junk32 i t)
            (fun i t => if t.registers 0 = 0 then em16 i t else junk16 i t)
            s2 instruction =
            riscv32_exec_instruction em32 em16 s2 instruction := by
          unfold riscv32_exec_instruction
          split_ifs <;> simp [hx2]
        dsimp only
        rw [hex]
        exact ih _
    · rfl

/-- C8 witness: identity executors, a constant fetch, junk executors
that clear wait_event, run for two steps from the C2 state. -/
theorem riscv32_run_till_event_x0_witness :
    (∀ s : Rv32State,
      (((fun t => ((some 0x13, t) : Option Nat × Rv32State)) s).2).registers 0 =
        s.registers 0) ∧
    riscv32_run_till_event (fun _ t => t) (fun _ t => t)
      (fun t => (some 0x13, t)) 2 c2State =
    riscv32_run_till_event
      (fun i t => if t.registers 0 = 0 then (fun _ u => u) i t
        else (fun _ u => riscv32_break u) i t)
      (fun i t => if t.registers 0 = 0 then (fun _ u => u) i t
        else (fun _ u => riscv32_break u) i t)
      (fun t => (some 0x13, t)) 2 c2State :=
  ⟨fun _ => rfl,
    riscv32_run_till_event_x0 (fun _ t => t) (fun _ t => t)
      (fun _ u => riscv32_break u) (fun _ u => riscv32_break u)
      (fun t => (some 0x13, t)) (fun _ => rfl) 2 c2State⟩

/-! ## The CSR file (riscv_csr.c)

Embedding of the RVVM hart CSR bank and riscv_csr_op, for the build
without USE_FPU and with USE_RV64 (maxlen_t is 64-bit).  Values are
`Nat` kept below 2^64 by the bitwise operations themselves. -/

/-- The three CSR read-modify-write operation kinds (riscv_csr.h is not
under src; their encodings only need to be distinct). -/
inductive CsrOp where
  | swap
  | setbits
  | clearbits
  deriving DecidableEq, Inhabited

/-- Standard CSR ids used by the dispatch (riscv_csr.h is not under src;
the ids are fixed by the RISC-V privileged specification). -/
def CSR_SEED : Nat := 0x015

def CSR_CYCLE : Nat := 0xC00

def CSR_TIME : Nat := 0xC01

def CSR_INSTRET : Nat := 0xC02

def CSR_CYCLEH : Nat := 0xC80

def CSR_TIMEH : Nat := 0xC81

def CSR_INSTRETH : Nat := 0xC82

def CSR_SSTATUS : Nat := 0x100

def CSR_SIE : Nat := 0x104

def CSR_STVEC : Nat := 0x105

def CSR_SCOUNTEREN : Nat := 0x106

def CSR_SENVCFG : Nat := 0x10A

def CSR_SSCRATCH : Nat := 0x140

def CSR_SEPC : Nat := 0x141

def CSR_SCAUSE : Nat := 0x142

def CSR_STVAL : Nat := 0x143

def CSR_SIP : Nat := 0x144

def CSR_STIMECMP : Nat := 0x14D

def CSR_STIMECMPH : Nat := 0x15D

def CSR_SATP : Nat := 0x180

def CSR_MVENDORID : Nat := 0xF11

def CSR_MARCHID : Nat := 0xF12

def CSR_MIMPID : Nat := 0xF13

def CSR_MHARTID : Nat := 0xF14

def CSR_MSTATUS : Nat := 0x300

def CSR_MSTATUSH : Nat := 0x310

def CSR_MISA : Nat := 0x301

def CSR_MEDELEG : Nat := 0x302

def CSR_MIDELEG : Nat := 0x303

def CSR_MIE : Nat := 0x304

def CSR_MTVEC : Nat := 0x305

def CSR_MCOUNTEREN : Nat := 0x306

def CSR_MSCRATCH : Nat := 0x340

def CSR_MEPC : Nat := 0x341

def CSR_MCAUSE : Nat := 0x342

def CSR_MTVAL : Nat := 0x343

def CSR_MIP : Nat := 0x344

def CSR_MENVCFG : Nat := 0x30A

def CSR_MENVCFGH : Nat := 0x31A

def CSR_MSECCFG : Nat := 0x747

def CSR_MSECCFGH : Nat := 0x757

def CSR_MCYCLE : Nat := 0xB00

def CSR_MINSTRET : Nat := 0xB02

def CSR_MCYCLEH : Nat := 0xB80

def CSR_MINSTRETH : Nat := 0xB82

def CSR_MCOUNTINHIBIT : Nat := 0x320

def CSR_MISA_RV32 : Nat := 0x40000000

def CSR_MISA_RV64 : Nat := 0x8000000000000000

def CSR_STATUS_TVM : Nat := 0x100000

def CSR_SATP_MODE_PHYS : Nat := 0

def CSR_SATP_MODE_SV39 : Nat := 8

def CSR_SATP_MODE_SV48 : Nat := 9

def CSR_SATP_MODE_SV57 : Nat := 10

def MMU_PAGE_SHIFT : Nat := 12

def FS_OFF : Nat := 0

def FS_DIRTY : Nat := 3

def INTERRUPT_STIMER : Nat := 5

/-- Writable-bit masks (riscv_csr.h is not under src; values follow the
privileged specification and do not affect the claims settled here). -/
def CSR_SSTATUS_MASK : Nat := 0x80000003000DE762

def CSR_MSTATUS_MASK : Nat := 0x8000000F007FFFEA

def CSR_SEIP_MASK : Nat := 0x222

def CSR_MEIP_MASK : Nat := 0xAAA

def CSR_MEDELEG_MASK : Nat := 0xB3FF

def CSR_MIDELEG_MASK : Nat := 0x222

def CSR_COUNTEREN_MASK : Nat := 0x7

def CSR_SENVCFG_MASK : Nat := 0x1

def CSR_MENVCFG_MASK : Nat := 0x8000000000000001

def CSR_MSECCFG_MASK : Nat := 0x300

structure RvvmMachine where
  rv64 : Bool
  /-- The monotonic timer value (rvtimer_get), an external input. -/
  timer : Nat
  /-- The entropy source output backing the seed CSR, an external
  input. -/
  rand16 : Nat
  /-- rvvm_has_arg("sv48") / ("sv57"). -/
  arg_sv48 : Bool
  arg_sv57 : Bool
  /-- Modelled from the spec: the currently raised external interrupt
  lines (riscv_interrupts_raised; riscv_hart.c is not under src). -/
  raised : Nat
  deriving Inhabited

structure RvvmCsr where
  status : Nat
  isa : Nat
  ie : Nat
  ip : Nat
  mseccfg : Nat
  hartid : Nat
  fcsr : Nat
  edeleg : Nat → Nat
  ideleg : Nat → Nat
  tvec : Nat → Nat
  scratch : Nat → Nat
  epc : Nat → Nat
  cause : Nat → Nat
  tval : Nat → Nat
  counteren : Nat → Nat
  envcfg : Nat → Nat
  deriving Inhabited

structure RvvmHart where
  machine : RvvmMachine
  rv64 : Bool
  priv_mode : Nat
  mmu_mode : Nat
  root_page_table : Nat
  /-- The TLB, modelled only up to emptiness: entries as an opaque-free
  list, flushed = []. -/
  tlb : List Nat
  /-- The supervisor timer comparator (rvtimecmp). -/
  stimecmp : Nat
  wait_event : Nat
  /-- Modelled from the spec: riscv_hart_check_interrupts re-examines
  pending interrupts; its effect on the hart's interrupt machinery is
  abstracted as this flag (riscv_hart.c is not under src). -/
  irq_check : Bool
  csr : RvvmCsr
  deriving Inhabited

/-- riscv_tlb_flush: mark every TLB entry invalid. -/
def riscv_tlb_flush (vm : RvvmHart) : RvvmHart := { vm with tlb := [] }

/-- Modelled from the spec: riscv_hart_check_interrupts (riscv_hart.c is
not under src) re-checks pending against enabled interrupts; abstracted
as setting a flag. -/
def riscv_hart_check_interrupts (vm : RvvmHart) : RvvmHart :=
  { vm with irq_check := true }

/-- Modelled from the spec: interrupt posting sets the ip bit and wakes
the hart (riscv_hart.c is not under src). -/
def riscv_interrupt (vm : RvvmHart) (cause : Nat) : RvvmHart :=
  { vm with csr := { vm.csr with ip := vm.csr.ip ||| (1 <<< cause) }
            wait_event := 0 }

/-- Modelled from the spec: clearing a pending interrupt bit
(riscv_hart.c is not under src). -/
def riscv_interrupt_clear (vm : RvvmHart) (cause : Nat) : RvvmHart :=
  { vm with csr := { vm.csr with ip := vm.csr.ip &&& comp64 (1 <<< cause) } }

def riscv_interrupts_raised (vm : RvvmHart) : Nat := vm.machine.raised

def rvtimer_get (vm : RvvmHart) : Nat := vm.machine.timer

def rvtimecmp_get (vm : RvvmHart) : Nat := vm.stimecmp

def rvtimecmp_pending (vm : RvvmHart) : Bool :=
  decide (vm.stimecmp ≤ vm.machine.timer)

/-- Modelled from the spec: time/timeh fail when counter-enable forbids
the access at the current privilege (riscv_csr.h is not under src). -/
def riscv_csr_timer_enabled (vm : RvvmHart) : Bool :=
  decide (3 ≤ vm.priv_mode) ||
    (decide (vm.csr.counteren 3 &&& 2 ≠ 0) &&
      (decide (1 ≤ vm.priv_mode) || decide (vm.csr.counteren 1 &&& 2 ≠ 0)))

/-- Modelled from the spec: the seed CSR fails unless enabled by CSR;
gated by the mseccfg seed-enable bits (riscv_csr.h is not under src). -/
def riscv_csr_seed_enabled (vm : RvvmHart) : Bool :=
  decide (3 ≤ vm.priv_mode) ||
    (decide (vm.priv_mode = 1) && decide (vm.csr.mseccfg &&& 0x200 ≠ 0)) ||
    (decide (vm.priv_mode = 0) && decide (vm.csr.mseccfg &&& 0x100 ≠ 0))

/-- Modelled from the spec: the supervisor timer extension gate, the
STCE bit of menvcfg (riscv_csr.h is not under src). -/
def riscv_csr_sstc_enabled (vm : RvvmHart) : Bool :=
  decide (vm.csr.envcfg 3 &&& (1 <<< 63) ≠ 0)

/-- Modelled from the spec: XLEN reconfiguration after a MISA width
switch; invalidates all TLB entries (riscv_hart.c is not under src). -/
def riscv_update_xlen (vm : RvvmHart) : RvvmHart :=
  { vm with rv64 := decide (vm.csr.isa &&& CSR_MISA_RV64 ≠ 0), tlb := [] }

/-- riscv_mkmisa over the characters of the ISA string: an rv64/rv32
prefix contributes the MXL bits, then each letter a..z up to an
underscore contributes its extension bit. -/
def riscv_mkmisa (s : List Char) : Nat :=
  let pre :=
    if s.take 4 = ['r', 'v', '6', '4'] then (CSR_MISA_RV64, s.drop 4)
    else if s.take 4 = ['r', 'v', '3', '2'] then (CSR_MISA_RV32, s.drop 4)
    else (0, s)
  (pre.2.takeWhile (fun ch => ch ≠ '_')).foldl
    (fun r ch => if 'a' ≤ ch ∧ ch ≤ 'z' then r ||| (1 <<< (ch.toNat - 97)) else r)
    pre.1

/-- The ISA letter string of the build without USE_FPU. -/
def misaLetters : List Char := ['i', 'm', 'a', 'c', 'b', 's', 'u']

/-- rvvm_mimpid: RVVM_VERSION carries no dash suffix in a release build,
so the source returns 0. -/
def rvvm_mimpid : Nat := 0

/-- riscv_csr_helper_masked: the masked read-modify-write.  Returns
(new csr value, value left in dest). -/
def riscv_csr_helper_masked (rv64 : Bool) (csr dest mask : Nat) (op : CsrOp) :
    Nat × Nat :=
  let tmp := csr
  let mask := if rv64 then mask else mask &&& M32
  let csr :=
    match op with
    | .swap => (csr &&& comp64 mask) ||| (dest &&& mask)
    | .setbits => csr ||| (dest &&& mask)
    | .clearbits => csr &&& comp64 (dest &&& mask)
  (csr, tmp &&& mask)

/-- riscv_csr_helper: the unmasked read-modify-write (mask -1 on RV32). -/
def riscv_csr_helper (rv64 : Bool) (csr dest : Nat) (op : CsrOp) : Nat × Nat :=
  if rv64 then
    let tmp := csr
    let csr :=
      match op with
      | .swap => dest
      | .setbits => csr ||| dest
      | .clearbits => csr &&& comp64 dest
    (csr, tmp)
  else riscv_csr_helper_masked rv64 csr dest M64 op

/-- riscv_csr_helper_l: RMW on the low half (or whole on RV64) of a
64-bit CSR. -/
def riscv_csr_helper_l (rv64 : Bool) (csr64 dest mask : Nat) (op : CsrOp) :
    Nat × Nat :=
  let r := riscv_csr_helper_masked rv64 csr64 dest mask op
  (if rv64 then r.1 else bit_replace csr64 0 32 r.1, r.2)

/-- riscv_csr_helper_h: RMW on the high half of a 64-bit CSR; fails on
RV64.  Returns (new csr value, dest, success). -/
def riscv_csr_helper_h (rv64 : Bool) (csr64 dest mask : Nat) (op : CsrOp) :
    Nat × Nat × Bool :=
  if rv64 then (csr64, dest, false)
  else
    let r := riscv_csr_helper_masked rv64 (csr64 >>> 32) dest (mask >>> 32) op
    (bit_replace csr64 32 32 r.1, r.2, true)

/-- riscv_csr_zero_h: read-as-zero upper half, RV32 only. -/
def riscv_csr_zero_h (vm : RvvmHart) (dest : Nat) : RvvmHart × Nat × Bool :=
  if vm.rv64 then (vm, dest, false) else (vm, 0, true)

def riscv_csr_time (vm : RvvmHart) (dest : Nat) : RvvmHart × Nat × Bool :=
  if riscv_csr_timer_enabled vm then (vm, rvtimer_get vm, true)
  else (vm, dest, false)

def riscv_csr_timeh (vm : RvvmHart) (dest : Nat) : RvvmHart × Nat × Bool :=
  if !vm.rv64 && riscv_csr_timer_enabled vm then (vm, rvtimer_get vm >>> 32, true)
  else (vm, dest, false)

def riscv_csr_seed (vm : RvvmHart) (dest : Nat) : RvvmHart × Nat × Bool :=
  if riscv_csr_seed_enabled vm then (vm, vm.machine.rand16, true)
  else (vm, dest, false)

/-- riscv_csr_misa: read merges the supported extension letters; a write
can switch XLEN when the machine allows it. -/
def riscv_csr_misa (vm : RvvmHart) (dest : Nat) (op : CsrOp) :
    RvvmHart × Nat × Bool :=
  let misa0 := vm.csr.isa ||| riscv_mkmisa misaLetters
  let r := riscv_csr_helper vm.rv64 misa0 dest op
  if vm.csr.isa &&& CSR_MISA_RV64 ≠ 0 ∧ r.1 &&& CSR_MISA_RV32 ≠ 0 then
    (riscv_update_xlen { vm with csr := { vm.csr with isa := CSR_MISA_RV32 } },
      r.2, true)
  else if vm.csr.isa &&& CSR_MISA_RV32 ≠ 0 ∧ r.1 &&& (CSR_MISA_RV64 >>> 32) ≠ 0 then
    if vm.machine.rv64 then
      (riscv_update_xlen { vm with csr := { vm.csr with isa := CSR_MISA_RV64 } },
        r.2, true)
    else (vm, r.2, true)
  else (vm, r.2, true)

def riscv_csr_sd_bit (vm : RvvmHart) : Nat :=
  if vm.rv64 then 0x8000000000000000 else 0x80000000

/-- riscv_csr_status: masked RMW on xstatus followed by field
validation (UXL/SXL on a 64-bit machine, MPP=2 clamped to 0, FS forced
OFF in the no-FPU build, VS forced OFF, XS = max FS VS), SD reported
from the old XS, and an interrupt re-check when enable bits rise. -/
def riscv_csr_status (vm : RvvmHart) (dest mask : Nat) (op : CsrOp) :
    RvvmHart × Nat × Bool :=
  let old_status := vm.csr.status
  let r := riscv_csr_helper_masked vm.rv64 vm.csr.status dest mask op
  let status := r.1
  let status :=
    if vm.machine.rv64 then
      let status :=
        if bit_cut status 32 2 ≠ 1 ∧ bit_cut status 32 2 ≠ 2 then
          bit_replace status 32 2 2
        else status
      if bit_cut status 34 2 ≠ 1 ∧ bit_cut status 34 2 ≠ 2 then
        bit_replace status 34 2 2
      else status
    else status
  let status := if bit_cut status 11 2 = 2 then bit_replace status 11 2 0 else status
  let fs := bit_cut status 13 2
  let status := if fs ≠ FS_OFF then bit_replace status 13 2 FS_OFF else status
  let fs := if fs ≠ FS_OFF then FS_OFF else fs
  let vs := bit_cut status 9 2
  let status := if vs ≠ FS_OFF then bit_replace status 9 2 FS_OFF else status
  let vs := if vs ≠ FS_OFF then FS_OFF else vs
  let status := bit_replace status 15 2 (max fs vs)
  let vm2 := { vm with csr := { vm.csr with status := status } }
  let d := if bit_cut old_status 15 2 = FS_DIRTY then r.2 ||| riscv_csr_sd_bit vm2
    else r.2
  let vm3 :=
    if bit_cut status 0 4 &&& (0xF ^^^ bit_cut old_status 0 4) ≠ 0 then
      riscv_hart_check_interrupts vm2
    else vm2
  (vm3, d, true)

def riscv_csr_ie (vm : RvvmHart) (dest mask : Nat) (op : CsrOp) :
    RvvmHart × Nat × Bool :=
  let r := riscv_csr_helper_masked vm.rv64 vm.csr.ie dest mask op
  (riscv_hart_check_interrupts { vm with csr := { vm.csr with ie := r.1 } },
    r.2, true)

def riscv_csr_ip (vm : RvvmHart) (dest mask : Nat) (op : CsrOp) :
    RvvmHart × Nat × Bool :=
  let r := riscv_csr_helper_masked vm.rv64 vm.csr.ip dest mask op
  (riscv_hart_check_interrupts { vm with csr := { vm.csr with ip := r.1 } },
    r.2 ||| (riscv_interrupts_raised vm &&& mask), true)

def riscv_csr_stimecmp_set (vm : RvvmHart) (stimecmp : Nat) : RvvmHart :=
  let vm := { vm with stimecmp := stimecmp }
  if rvtimecmp_pending vm then riscv_interrupt vm INTERRUPT_STIMER
  else riscv_interrupt_clear vm INTERRUPT_STIMER

def riscv_csr_stimecmp (vm : RvvmHart) (dest : Nat) (op : CsrOp) :
    RvvmHart × Nat × Bool :=
  if riscv_csr_sstc_enabled vm then
    let r := riscv_csr_helper_l vm.rv64 (rvtimecmp_get vm) dest M64 op
    (riscv_csr_stimecmp_set vm r.1, r.2, true)
  else (vm, dest, false)

def riscv_csr_stimecmph (vm : RvvmHart) (dest : Nat) (op : CsrOp) :
    RvvmHart × Nat × Bool :=
  if !vm.rv64 && riscv_csr_sstc_enabled vm then
    let r := riscv_csr_helper_h vm.rv64 (rvtimecmp_get vm) dest M64 op
    (riscv_csr_stimecmp_set vm r.1, r.2.1, true)
  else (vm, dest, false)

/-- The satp mode clamp on RV64: modes outside SV39..SV57, or SV48/SV57
without the matching build argument, fall back to BARE. -/
def riscv_csr_satp_mode64 (vm : RvvmHart) (m : Nat) : Nat :=
  if m < CSR_SATP_MODE_SV39 ∨ CSR_SATP_MODE_SV57 < m ∨
      (m = CSR_SATP_MODE_SV48 ∧ ¬vm.machine.arg_sv48) ∨
      (m = CSR_SATP_MODE_SV57 ∧ ¬vm.machine.arg_sv57) then
    CSR_SATP_MODE_PHYS
  else m

/-- The RV64 branch of riscv_csr_satp. -/
def riscv_csr_satp64 (vm : RvvmHart) (dest : Nat) (op : CsrOp) :
    RvvmHart × Nat × Bool :=
  let r := riscv_csr_helper vm.rv64
    ((vm.mmu_mode <<< 60) ||| (vm.root_page_table >>> MMU_PAGE_SHIFT)) dest op
  let vm2 := { vm with
    mmu_mode := riscv_csr_satp_mode64 vm (bit_cut r.1 60 4)
    root_page_table := (r.1 &&& bit_mask 44) <<< MMU_PAGE_SHIFT }
  (if decide (vm2.mmu_mode ≠ 0) ≠ decide (vm.mmu_mode ≠ 0) then
    riscv_tlb_flush vm2 else vm2, r.2, true)

/-- The RV32 branch of riscv_csr_satp. -/
def riscv_csr_satp32 (vm : RvvmHart) (dest : Nat) (op : CsrOp) :
    RvvmHart × Nat × Bool :=
  let r := riscv_csr_helper vm.rv64
    ((vm.mmu_mode <<< 31) ||| (vm.root_page_table >>> MMU_PAGE_SHIFT)) dest op
  let vm2 := { vm with
    mmu_mode := bit_cut r.1 31 1
    root_page_table := (r.1 &&& bit_mask 22) <<< MMU_PAGE_SHIFT }
  (if decide (vm2.mmu_mode ≠ 0) ≠ decide (vm.mmu_mode ≠ 0) then
    riscv_tlb_flush vm2 else vm2, r.2, true)

/-- riscv_csr_satp: fails under STATUS.TVM; otherwise reinterprets the
written value per XLEN, clamps unsupported modes to BARE and flushes
the TLB exactly when the paging enable status flips (the source
compares !!vm->mmu_mode against !!prev_mmu). -/
def riscv_csr_satp (vm : RvvmHart) (dest : Nat) (op : CsrOp) :
    RvvmHart × Nat × Bool :=
  if vm.csr.status &&& CSR_STATUS_TVM ≠ 0 then (vm, dest, false)
  else if vm.rv64 then riscv_csr_satp64 vm dest op
  else riscv_csr_satp32 vm dest op

/-- Field-update helpers for the per-privilege CSR arrays (the C code
writes through pointers into the bank; these keep the embedded dispatch
arms small). -/
def setTvec (vm : RvvmHart) (p x : Nat) : RvvmHart :=
  { vm with csr := { vm.csr with tvec := updF vm.csr.tvec p x } }

def setScratch (vm : RvvmHart) (p x : Nat) : RvvmHart :=
  { vm with csr := { vm.csr with scratch := updF vm.csr.scratch p x } }

def setEpc (vm : RvvmHart) (p x : Nat) : RvvmHart :=
  { vm with csr := { vm.csr with epc := updF vm.csr.epc p x } }

def setCause (vm : RvvmHart) (p x : Nat) : RvvmHart :=
  { vm with csr := { vm.csr with cause := updF vm.csr.cause p x } }

def setTval (vm : RvvmHart) (p x : Nat) : RvvmHart :=
  { vm with csr := { vm.csr with tval := updF vm.csr.tval p x } }

def setCounteren (vm : RvvmHart) (p x : Nat) : RvvmHart :=
  { vm with csr := { vm.csr with counteren := updF vm.csr.counteren p x } }

def setEnvcfg (vm : RvvmHart) (p x : Nat) : RvvmHart :=
  { vm with csr := { vm.csr with envcfg := updF vm.csr.envcfg p x } }

def setEdeleg (vm : RvvmHart) (p x : Nat) : RvvmHart :=
  { vm with csr := { vm.csr with edeleg := updF vm.csr.edeleg p x } }

def setIdeleg (vm : RvvmHart) (p x : Nat) : RvvmHart :=
  { vm with csr := { vm.csr with ideleg := updF vm.csr.ideleg p x } }

def setMseccfg (vm : RvvmHart) (x : Nat) : RvvmHart :=
  { vm with csr := { vm.csr with mseccfg := x } }

/-- Stage 4 of the dispatch switch: machine memory protection and the
performance counters, written as the equivalent range tests of the
source case lists, and the switch default. -/
def riscv_csr_op_internal_pmpctr (vm : RvvmHart) (csr_id dest : Nat) (op : CsrOp) :
    RvvmHart × Nat × Bool :=
  if 0x3A0 ≤ csr_id ∧ csr_id ≤ 0x3A3 then (vm, 0, true)
  else if 0x3B0 ≤ csr_id ∧ csr_id ≤ 0x3BF then (vm, 0, true)
  else if csr_id = CSR_MCYCLE ∨ (CSR_MINSTRET ≤ csr_id ∧ csr_id ≤ 0xB1F) then
    (vm, 0, true)
  else if csr_id = CSR_MCYCLEH ∨ (CSR_MINSTRETH ≤ csr_id ∧ csr_id ≤ 0xB9F) then
    riscv_csr_zero_h vm dest
  else if csr_id = CSR_MCOUNTINHIBIT then (vm, 0, true)
  else (vm, dest, false)

/-- Stage 3b of the dispatch switch: machine trap handling and machine
configuration. -/
def riscv_csr_op_internal_mtrap (vm : RvvmHart) (csr_id dest : Nat) (op : CsrOp) :
    RvvmHart × Nat × Bool :=
  if csr_id = CSR_MIE then riscv_csr_ie vm dest CSR_MEIP_MASK op
  else if csr_id = CSR_MTVEC then
    let r := riscv_csr_helper vm.rv64 (vm.csr.tvec 3) dest op
    (setTvec vm 3 r.1, r.2, true)
  else if csr_id = CSR_MCOUNTEREN then
    let r := riscv_csr_helper_masked vm.rv64 (vm.csr.counteren 3) dest
      CSR_COUNTEREN_MASK op
    (setCounteren vm 3 r.1, r.2, true)
  else if csr_id = CSR_MSCRATCH then
    let r := riscv_csr_helper vm.rv64 (vm.csr.scratch 3) dest op
    (setScratch vm 3 r.1, r.2, true)
  else if csr_id = CSR_MEPC then
    let r := riscv_csr_helper vm.rv64 (vm.csr.epc 3) dest op
    (setEpc vm 3 r.1, r.2, true)
  else if csr_id = CSR_MCAUSE then
    let r := riscv_csr_helper vm.rv64 (vm.csr.cause 3) dest op
    (setCause vm 3 r.1, r.2, true)
  else if csr_id = CSR_MTVAL then
    let r := riscv_csr_helper vm.rv64 (vm.csr.tval 3) dest op
    (setTval vm 3 r.1, r.2, true)
  else if csr_id = CSR_MIP then riscv_csr_ip vm dest CSR_MEIP_MASK op
  else if csr_id = CSR_MENVCFG then
    let r := riscv_csr_helper_l vm.rv64 (vm.csr.envcfg 3) dest CSR_MENVCFG_MASK op
    (setEnvcfg vm 3 r.1, r.2, true)
  else if csr_id = CSR_MENVCFGH then
    let r := riscv_csr_helper_h vm.rv64 (vm.csr.envcfg 3) dest CSR_MENVCFG_MASK op
    (setEnvcfg vm 3 r.1, r.2.1, r.2.2)
  else if csr_id = CSR_MSECCFG then
    let r := riscv_csr_helper_l vm.rv64 vm.csr.mseccfg dest CSR_MSECCFG_MASK op
    (setMseccfg vm r.1, r.2, true)
  else if csr_id = CSR_MSECCFGH then
    let r := riscv_csr_helper_h vm.rv64 vm.csr.mseccfg dest CSR_MSECCFG_MASK op
    (setMseccfg vm r.1, r.2.1, r.2.2)
  else riscv_csr_op_internal_pmpctr vm csr_id dest op

/-- Stage 3a of the dispatch switch: machine information registers and
machine trap setup. -/
def riscv_csr_op_internal_minfo (vm : RvvmHart) (csr_id dest : Nat) (op : CsrOp) :
    RvvmHart × Nat × Bool :=
  if csr_id = CSR_MVENDORID then (vm, 0, true)
  else if csr_id = CSR_MARCHID then (vm, 0x5256564D, true)
  else if csr_id = CSR_MIMPID then (vm, rvvm_mimpid, true)
  else if csr_id = CSR_MHARTID then (vm, vm.csr.hartid, true)
  else if csr_id = CSR_MSTATUS then riscv_csr_status vm dest CSR_MSTATUS_MASK op
  else if csr_id = CSR_MSTATUSH then (vm, 0, true)
  else if csr_id = CSR_MISA then riscv_csr_misa vm dest op
  else if csr_id = CSR_MEDELEG then
    let r := riscv_csr_helper_masked vm.rv64 (vm.csr.edeleg 3) dest
      CSR_MEDELEG_MASK op
    (setEdeleg vm 3 r.1, r.2, true)
  else if csr_id = CSR_MIDELEG then
    let r := riscv_csr_helper_masked vm.rv64 (vm.csr.ideleg 3) dest
      CSR_MIDELEG_MASK op
    (setIdeleg vm 3 r.1, r.2, true)
  else riscv_csr_op_internal_mtrap vm csr_id dest op

/-- Stage 2 of the dispatch switch: supervisor CSRs. -/
def riscv_csr_op_internal_sup (vm : RvvmHart) (csr_id dest : Nat) (op : CsrOp) :
    RvvmHart × Nat × Bool :=
  if csr_id = CSR_SSTATUS then riscv_csr_status vm dest CSR_SSTATUS_MASK op
  else if csr_id = CSR_SIE then riscv_csr_ie vm dest CSR_SEIP_MASK op
  else if csr_id = CSR_STVEC then
    let r := riscv_csr_helper vm.rv64 (vm.csr.tvec 1) dest op
    (setTvec vm 1 r.1, r.2, true)
  else if csr_id = CSR_SCOUNTEREN then
    let r := riscv_csr_helper_masked vm.rv64 (vm.csr.counteren 1) dest
      CSR_COUNTEREN_MASK op
    (setCounteren vm 1 r.1, r.2, true)
  else if csr_id = CSR_SENVCFG then
    let r := riscv_csr_helper_l vm.rv64 (vm.csr.envcfg 1) dest CSR_SENVCFG_MASK op
    (setEnvcfg vm 1 r.1, r.2, true)
  else if csr_id = CSR_SSCRATCH then
    let r := riscv_csr_helper vm.rv64 (vm.csr.scratch 1) dest op
    (setScratch vm 1 r.1, r.2, true)
  else if csr_id = CSR_SEPC then
    let r := riscv_csr_helper vm.rv64 (vm.csr.epc 1) dest op
    (setEpc vm 1 r.1, r.2, true)
  else if csr_id = CSR_SCAUSE then
    let r := riscv_csr_helper vm.rv64 (vm.csr.cause 1) dest op
    (setCause vm 1 r.1, r.2, true)
  else if csr_id = CSR_STVAL then
    let r := riscv_csr_helper vm.rv64 (vm.csr.tval 1) dest op
    (setTval vm 1 r.1, r.2, true)
  else if csr_id = CSR_SIP then riscv_csr_ip vm dest CSR_SEIP_MASK op
  else if csr_id = CSR_STIMECMP then riscv_csr_stimecmp vm dest op
  else if csr_id = CSR_STIMECMPH then riscv_csr_stimecmph vm dest op
  else if csr_id = CSR_SATP then riscv_csr_satp vm dest op
  else riscv_csr_op_internal_minfo vm csr_id dest op

/-- riscv_csr_op_internal: the dispatch switch of the source, written as
a chain of id comparisons staged by the source's comment groups (a C
switch on distinct ids is order-independent, so the staging preserves
its meaning).  Stage 1 covers the unprivileged CSRs. -/
def riscv_csr_op_internal (vm : RvvmHart) (csr_id dest : Nat) (op : CsrOp) :
    RvvmHart × Nat × Bool :=
  if csr_id = CSR_SEED then riscv_csr_seed vm dest
  else if csr_id = CSR_CYCLE then (vm, 0, true)
  else if csr_id = CSR_CYCLEH then riscv_csr_zero_h vm dest
  else if csr_id = CSR_TIME then riscv_csr_time vm dest
  else if csr_id = CSR_TIMEH then riscv_csr_timeh vm dest
  else if csr_id = CSR_INSTRET then (vm, 0, true)
  else if csr_id = CSR_INSTRETH then riscv_csr_zero_h vm dest
  else riscv_csr_op_internal_sup vm csr_id dest op

/-- riscv_csr_readonly: upper two bits of the 12-bit id are 11.
Modelled from the spec (riscv_csr.h is not under src). -/
def riscv_csr_readonly (csr_id : Nat) : Bool :=
  decide ((csr_id >>> 10) &&& 3 = 3)

/-- riscv_csr_privilege: the minimum privilege, bits 8..9 of the id.
Modelled from the spec (riscv_csr.h is not under src). -/
def riscv_csr_privilege (csr_id : Nat) : Nat := (csr_id >>> 8) &&& 3

/-- Sign-extension of a 32-bit value into the 64-bit register width,
the C cast (int32_t) assigned back to maxlen_t. -/
def sext32 (x : Nat) : Nat :=
  if x % 2 ^ 32 < 2 ^ 31 then x % 2 ^ 32 else 0xFFFFFFFF00000000 + x % 2 ^ 32

/-- riscv_csr_op: the read-only gate, the privilege gate, the dispatch,
and the RV32 sign-extension of the returned value (the source reads
vm->rv64 after the dispatch, so an XLEN switch by the op itself governs
the extension). -/
def riscv_csr_op (vm : RvvmHart) (csr_id dest : Nat) (op : CsrOp) :
    RvvmHart × Nat × Bool :=
  if riscv_csr_readonly csr_id &&
      (decide (op = CsrOp.swap) || decide (dest ≠ 0)) then
    (vm, dest, false)
  else if riscv_csr_privilege csr_id > vm.priv_mode then (vm, dest, false)
  else
    let r := riscv_csr_op_internal vm csr_id dest op
    (r.1, if r.1.rv64 then r.2.1 else sext32 r.2.1, r.2.2)

/-! ## The value a CSR op leaves in dest

Every dispatch arm computes the returned value from the pre-op state
only, independently of the incoming dest and of the op kind; the lemmas
below state this arm by arm, and `riscv_csr_op_internal_read` assembles
them: a successful op leaves in dest exactly what a pure read (SETBITS
of zero) of the same CSR would. -/

theorem riscv_csr_helper_masked_dest (rv64 : Bool) (csr dest mask : Nat)
    (op : CsrOp) :
    (riscv_csr_helper_masked rv64 csr dest mask op).2 =
      csr &&& (if rv64 then mask else mask &&& M32) := rfl

theorem riscv_csr_helper_dest (rv64 : Bool) (csr dest : Nat) (op : CsrOp) :
    (riscv_csr_helper rv64 csr dest op).2 = if rv64 then csr else csr &&& M32 := by
  cases rv64 <;>
    simp [riscv_csr_helper, riscv_csr_helper_masked_dest,
      (by decide : M64 &&& M32 = M32)]

theorem riscv_csr_helper_l_dest (rv64 : Bool) (csr64 dest mask : Nat) (op : CsrOp) :
    (riscv_csr_helper_l rv64 csr64 dest mask op).2 =
      csr64 &&& (if rv64 then mask else mask &&& M32) := rfl

theorem riscv_csr_helper_h_dest_false (c d m : Nat) (op : CsrOp) :
    (riscv_csr_helper_h false c d m op).2.1 =
      (c >>> 32) &&& ((m >>> 32) &&& M32) := rfl

theorem riscv_csr_helper_h_read (rv64 : Bool) (c d m : Nat) (op : CsrOp) :
    (riscv_csr_helper_h rv64 c d m op).2.2 = true →
      (riscv_csr_helper_h rv64 c 0 m CsrOp.setbits).2.2 = true ∧
      (riscv_csr_helper_h rv64 c d m op).2.1 =
        (riscv_csr_helper_h rv64 c 0 m CsrOp.setbits).2.1 := by
  cases rv64
  · intro _
    refine ⟨rfl, ?_⟩
    rw [riscv_csr_helper_h_dest_false, riscv_csr_helper_h_dest_false]
  · intro h
    exact nomatch h

theorem riscv_csr_zero_h_read (vm : RvvmHart) (d : Nat) :
    (riscv_csr_zero_h vm d).2.2 = true →
      (riscv_csr_zero_h vm 0).2.2 = true ∧
      (riscv_csr_zero_h vm d).2.1 = (riscv_csr_zero_h vm 0).2.1 := by
  by_cases h : vm.rv64 <;> simp [riscv_csr_zero_h, h]

theorem riscv_csr_time_read (vm : RvvmHart) (d : Nat) :
    (riscv_csr_time vm d).2.2 = true →
      (riscv_csr_time vm 0).2.2 = true ∧
      (riscv_csr_time vm d).2.1 = (riscv_csr_time vm 0).2.1 := by
  by_cases h : riscv_csr_timer_enabled vm <;> simp [riscv_csr_time, h]

theorem riscv_csr_timeh_read (vm : RvvmHart) (d : Nat) :
    (riscv_csr_timeh vm d).2.2 = true →
      (riscv_csr_timeh vm 0).2.2 = true ∧
      (riscv_csr_timeh vm d).2.1 = (riscv_csr_timeh vm 0).2.1 := by
  by_cases h : (!vm.rv64 && riscv_csr_timer_enabled vm) = true <;>
    simp [riscv_csr_timeh, h]

theorem riscv_csr_seed_read (vm : RvvmHart) (d : Nat) :
    (riscv_csr_seed vm d).2.2 = true →
      (riscv_csr_seed vm 0).2.2 = true ∧
      (riscv_csr_seed vm d).2.1 = (riscv_csr_seed vm 0).2.1 := by
  by_cases h : riscv_csr_seed_enabled vm <;> simp [riscv_csr_seed, h]

theorem riscv_csr_status_read (vm : RvvmHart) (d mask : Nat) (op : CsrOp) :
    (riscv_csr_status vm d mask op).2.2 = true →
      (riscv_csr_status vm 0 mask CsrOp.setbits).2.2 = true ∧
      (riscv_csr_status vm d mask op).2.1 =
        (riscv_csr_status vm 0 mask CsrOp.setbits).2.1 := by
  intro _
  refine ⟨rfl, ?_⟩
  simp [riscv_csr_status, riscv_csr_helper_masked_dest, riscv_csr_sd_bit]

theorem riscv_csr_ie_read (vm : RvvmHart) (d mask : Nat) (op : CsrOp) :
    (riscv_csr_ie vm d mask op).2.2 = true →
      (riscv_csr_ie vm 0 mask CsrOp.setbits).2.2 = true ∧
      (riscv_csr_ie vm d mask op).2.1 =
        (riscv_csr_ie vm 0 mask CsrOp.setbits).2.1 := by
  intro _
  exact ⟨rfl, by simp [riscv_csr_ie, riscv_csr_helper_masked_dest]⟩

theorem riscv_csr_ip_read (vm : RvvmHart) (d mask : Nat) (op : CsrOp) :
    (riscv_csr_ip vm d mask op).2.2 = true →
      (riscv_csr_ip vm 0 mask CsrOp.setbits).2.2 = true ∧
      (riscv_csr_ip vm d mask op).2.1 =
        (riscv_csr_ip vm 0 mask CsrOp.setbits).2.1 := by
  intro _
  exact ⟨rfl, by simp [riscv_csr_ip, riscv_csr_helper_masked_dest]⟩

theorem riscv_csr_stimecmp_read (vm : RvvmHart) (d : Nat) (op : CsrOp) :
    (riscv_csr_stimecmp vm d op).2.2 = true →
      (riscv_csr_stimecmp vm 0 CsrOp.setbits).2.2 = true ∧
      (riscv_csr_stimecmp vm d op).2.1 =
        (riscv_csr_stimecmp vm 0 CsrOp.setbits).2.1 := by
  by_cases h : riscv_csr_sstc_enabled vm <;>
    simp [riscv_csr_stimecmp, h, riscv_csr_helper_l_dest]

theorem riscv_csr_stimecmph_read (vm : RvvmHart) (d : Nat) (op : CsrOp) :
    (riscv_csr_stimecmph vm d op).2.2 = true →
      (riscv_csr_stimecmph vm 0 CsrOp.setbits).2.2 = true ∧
      (riscv_csr_stimecmph vm d op).2.1 =
        (riscv_csr_stimecmph vm 0 CsrOp.setbits).2.1 := by
  by_cases h : (!vm.rv64 && riscv_csr_sstc_enabled vm) = true
  · have h2 : (!vm.rv64) = true ∧ riscv_csr_sstc_enabled vm = true := by
      simpa using h
    obtain ⟨h1, hs⟩ := h2
    have hrv : vm.rv64 = false := by simpa using h1
    simp [riscv_csr_stimecmph, h, hs, hrv, riscv_csr_helper_h_dest_false]
  · simp [riscv_csr_stimecmph, h]

theorem riscv_csr_satp_read (vm : RvvmHart) (d : Nat) (op : CsrOp) :
    (riscv_csr_satp vm d op).2.2 = true →
      (riscv_csr_satp vm 0 CsrOp.setbits).2.2 = true ∧
      (riscv_csr_satp vm d op).2.1 =
        (riscv_csr_satp vm 0 CsrOp.setbits).2.1 := by
  unfold riscv_csr_satp
  split_ifs with h1 h2
  · exact fun h => nomatch h
  · intro _
    refine ⟨rfl, ?_⟩
    show (riscv_csr_helper vm.rv64
        ((vm.mmu_mode <<< 60) ||| (vm.root_page_table >>> MMU_PAGE_SHIFT)) d op).2 = _
    exact (riscv_csr_helper_dest vm.rv64
        ((vm.mmu_mode <<< 60) ||| (vm.root_page_table >>> MMU_PAGE_SHIFT)) d op).trans
      (riscv_csr_helper_dest vm.rv64
        ((vm.mmu_mode <<< 60) ||| (vm.root_page_table >>> MMU_PAGE_SHIFT)) 0
        CsrOp.setbits).symm
  · intro _
    refine ⟨rfl, ?_⟩
    show (riscv_csr_helper vm.rv64
        ((vm.mmu_mode <<< 31) ||| (vm.root_page_table >>> MMU_PAGE_SHIFT)) d op).2 = _
    exact (riscv_csr_helper_dest vm.rv64
        ((vm.mmu_mode <<< 31) ||| (vm.root_page_table >>> MMU_PAGE_SHIFT)) d op).trans
      (riscv_csr_helper_dest vm.rv64
        ((vm.mmu_mode <<< 31) ||| (vm.root_page_table >>> MMU_PAGE_SHIFT)) 0
        CsrOp.setbits).symm

theorem riscv_csr_misa_read (vm : RvvmHart) (d : Nat) (op : CsrOp) :
    (riscv_csr_misa vm d op).2.2 = true →
      (riscv_csr_misa vm 0 CsrOp.setbits).2.2 = true ∧
      (riscv_csr_misa vm d op).2.1 =
        (riscv_csr_misa vm 0 CsrOp.setbits).2.1 := by
  intro _
  constructor
  · unfold riscv_csr_misa
    dsimp only
    split_ifs <;> rfl
  · unfold riscv_csr_misa
    dsimp only
    split_ifs <;>
      exact (riscv_csr_helper_dest vm.rv64 (vm.csr.isa ||| riscv_mkmisa misaLetters)
          d op).trans
        (riscv_csr_helper_dest vm.rv64 (vm.csr.isa ||| riscv_mkmisa misaLetters)
          0 CsrOp.setbits).symm

/-- Helper-arm tactic target, stage 4. -/
theorem riscv_csr_op_internal_pmpctr_read (vm : RvvmHart) (c d : Nat) (op : CsrOp) :
    (riscv_csr_op_internal_pmpctr vm c d op).2.2 = true →
      (riscv_csr_op_internal_pmpctr vm c 0 CsrOp.setbits).2.2 = true ∧
      (riscv_csr_op_internal_pmpctr vm c d op).2.1 =
        (riscv_csr_op_internal_pmpctr vm c 0 CsrOp.setbits).2.1 := by
  unfold riscv_csr_op_internal_pmpctr
  split_ifs
  all_goals
    first
    | exact fun _ => ⟨by trivial, by trivial⟩
    | exact riscv_csr_zero_h_read vm d

theorem riscv_csr_op_internal_mtrap_read (vm : RvvmHart) (c d : Nat) (op : CsrOp) :
    (riscv_csr_op_internal_mtrap vm c d op).2.2 = true →
      (riscv_csr_op_internal_mtrap vm c 0 CsrOp.setbits).2.2 = true ∧
      (riscv_csr_op_internal_mtrap vm c d op).2.1 =
        (riscv_csr_op_internal_mtrap vm c 0 CsrOp.setbits).2.1 := by
  unfold riscv_csr_op_internal_mtrap
  by_cases h1 : c = CSR_MIE
  · simp only [if_pos h1]
    exact riscv_csr_ie_read vm d CSR_MEIP_MASK op
  simp only [if_neg h1]
  by_cases h2 : c = CSR_MTVEC
  · simp only [if_pos h2]
    refine fun _ => ⟨by trivial, ?_⟩
    exact (riscv_csr_helper_dest vm.rv64 (vm.csr.tvec 3) d op).trans
      (riscv_csr_helper_dest vm.rv64 (vm.csr.tvec 3) 0 CsrOp.setbits).symm
  simp only [if_neg h2]
  by_cases h3 : c = CSR_MCOUNTEREN
  · simp only [if_pos h3]
    refine fun _ => ⟨by trivial, ?_⟩
    exact (riscv_csr_helper_masked_dest vm.rv64 (vm.csr.counteren 3) d CSR_COUNTEREN_MASK op).trans
      (riscv_csr_helper_masked_dest vm.rv64 (vm.csr.counteren 3) 0 CSR_COUNTEREN_MASK
        CsrOp.setbits).symm
  simp only [if_neg h3]
  by_cases h4 : c = CSR_MSCRATCH
  · simp only [if_pos h4]
    refine fun _ => ⟨by trivial, ?_⟩
    exact (riscv_csr_helper_dest vm.rv64 (vm.csr.scratch 3) d op).trans
      (riscv_csr_helper_dest vm.rv64 (vm.csr.scratch 3) 0 CsrOp.setbits).symm
  simp only [if_neg h4]
  by_cases h5 : c = CSR_MEPC
  · simp only [if_pos h5]
    refine fun _ => ⟨by trivial, ?_⟩
    exact (riscv_csr_helper_dest vm.rv64 (vm.csr.epc 3) d op).trans
      (riscv_csr_helper_dest vm.rv64 (vm.csr.epc 3) 0 CsrOp.setbits).symm
  simp only [if_neg h5]
  by_cases h6 : c = CSR_MCAUSE
  · simp only [if_pos h6]
    refine fun _ => ⟨by trivial, ?_⟩
    exact (riscv_csr_helper_dest vm.rv64 (vm.csr.cause 3) d op).trans
      (riscv_csr_helper_dest vm.rv64 (vm.csr.cause 3) 0 CsrOp.setbits).symm
  simp only [if_neg h6]
  by_cases h7 : c = CSR_MTVAL
  · simp only [if_pos h7]
    refine fun _ => ⟨by trivial, ?_⟩
    exact (riscv_csr_helper_dest vm.rv64 (vm.csr.tval 3) d op).trans
      (riscv_csr_helper_dest vm.rv64 (vm.csr.tval 3) 0 CsrOp.setbits).symm
  simp only [if_neg h7]
  by_cases h8 : c = CSR_MIP
  · simp only [if_pos h8]
    exact riscv_csr_ip_read vm d CSR_MEIP_MASK op
  simp only [if_neg h8]
  by_cases h9 : c = CSR_MENVCFG
  · simp only [if_pos h9]
    refine fun _ => ⟨by trivial, ?_⟩
    exact (riscv_csr_helper_l_dest vm.rv64 (vm.csr.envcfg 3) d CSR_MENVCFG_MASK op).trans
      (riscv_csr_helper_l_dest vm.rv64 (vm.csr.envcfg 3) 0 CSR_MENVCFG_MASK
        CsrOp.setbits).symm
  simp only [if_neg h9]
  by_cases h10 : c = CSR_MENVCFGH
  · simp only [if_pos h10]
    exact fun hok =>
      ⟨(riscv_csr_helper_h_read vm.rv64 (vm.csr.envcfg 3) d CSR_MENVCFG_MASK op hok).1,
        (riscv_csr_helper_h_read vm.rv64 (vm.csr.envcfg 3) d CSR_MENVCFG_MASK op hok).2⟩
  simp only [if_neg h10]
  by_cases h11 : c = CSR_MSECCFG
  · simp only [if_pos h11]
    refine fun _ => ⟨by trivial, ?_⟩
    exact (riscv_csr_helper_l_dest vm.rv64 (vm.csr.mseccfg) d CSR_MSECCFG_MASK op).trans
      (riscv_csr_helper_l_dest vm.rv64 (vm.csr.mseccfg) 0 CSR_MSECCFG_MASK
        CsrOp.setbits).symm
  simp only [if_neg h11]
  by_cases h12 : c = CSR_MSECCFGH
  · simp only [if_pos h12]
    exact fun hok =>
      ⟨(riscv_csr_helper_h_read vm.rv64 (vm.csr.mseccfg) d CSR_MSECCFG_MASK op hok).1,
        (riscv_csr_helper_h_read vm.rv64 (vm.csr.mseccfg) d CSR_MSECCFG_MASK op hok).2⟩
  simp only [if_neg h12]
  exact riscv_csr_op_internal_pmpctr_read vm c d op

theorem riscv_csr_op_internal_minfo_read (vm : RvvmHart) (c d : Nat) (op : CsrOp) :
    (riscv_csr_op_internal_minfo vm c d op).2.2 = true →
      (riscv_csr_op_internal_minfo vm c 0 CsrOp.setbits).2.2 = true ∧
      (riscv_csr_op_internal_minfo vm c d op).2.1 =
        (riscv_csr_op_internal_minfo vm c 0 CsrOp.setbits).2.1 := by
  unfold riscv_csr_op_internal_minfo
  by_cases h1 : c = CSR_MVENDORID
  · simp only [if_pos h1]
    exact fun _ => ⟨by trivial, by trivial⟩
  simp only [if_neg h1]
  by_cases h2 : c = CSR_MARCHID
  · simp only [if_pos h2]
    exact fun _ => ⟨by trivial, by trivial⟩
  simp only [if_neg h2]
  by_cases h3 : c = CSR_MIMPID
  · simp only [if_pos h3]
    exact fun _ => ⟨by trivial, by trivial⟩
  simp only [if_neg h3]
  by_cases h4 : c = CSR_MHARTID
  · simp only [if_pos h4]
    exact fun _ => ⟨by trivial, by trivial⟩
  simp only [if_neg h4]
  by_cases h5 : c = CSR_MSTATUS
  · simp only [if_pos h5]
    exact riscv_csr_status_read vm d CSR_MSTATUS_MASK op
  simp only [if_neg h5]
  by_cases h6 : c = CSR_MSTATUSH
  · simp only [if_pos h6]
    exact fun _ => ⟨by trivial, by trivial⟩
  simp only [if_neg h6]
  by_cases h7 : c = CSR_MISA
  · simp only [if_pos h7]
    exact riscv_csr_misa_read vm d op
  simp only [if_neg h7]
  by_cases h8 : c = CSR_MEDELEG
  · simp only [if_pos h8]
    refine fun _ => ⟨by trivial, ?_⟩
    exact (riscv_csr_helper_masked_dest vm.rv64 (vm.csr.edeleg 3) d CSR_MEDELEG_MASK op).trans
      (riscv_csr_helper_masked_dest vm.rv64 (vm.csr.edeleg 3) 0 CSR_MEDELEG_MASK
        CsrOp.setbits).symm
  simp only [if_neg h8]
  by_cases h9 : c = CSR_MIDELEG
  · simp only [if_pos h9]
    refine fun _ => ⟨by trivial, ?_⟩
    exact (riscv_csr_helper_masked_dest vm.rv64 (vm.csr.ideleg 3) d CSR_MIDELEG_MASK op).trans
      (riscv_csr_helper_masked_dest vm.rv64 (vm.csr.ideleg 3) 0 CSR_MIDELEG_MASK
        CsrOp.setbits).symm
  simp only [if_neg h9]
  exact riscv_csr_op_internal_mtrap_read vm c d op

theorem riscv_csr_op_internal_sup_read (vm : RvvmHart) (c d : Nat) (op : CsrOp) :
    (riscv_csr_op_internal_sup vm c d op).2.2 = true →
      (riscv_csr_op_internal_sup vm c 0 CsrOp.setbits).2.2 = true ∧
      (riscv_csr_op_internal_sup vm c d op).2.1 =
        (riscv_csr_op_internal_sup vm c 0 CsrOp.setbits).2.1 := by
  unfold riscv_csr_op_internal_sup
  by_cases h1 : c = CSR_SSTATUS
  · simp only [if_pos h1]
    exact riscv_csr_status_read vm d CSR_SSTATUS_MASK op
  simp only [if_neg h1]
  by_cases h2 : c = CSR_SIE
  · simp only [if_pos h2]
    exact riscv_csr_ie_read vm d CSR_SEIP_MASK op
  simp only [if_neg h2]
  by_cases h3 : c = CSR_STVEC
  · simp only [if_pos h3]
    refine fun _ => ⟨by trivial, ?_⟩
    exact (riscv_csr_helper_dest vm.rv64 (vm.csr.tvec 1) d op).trans
      (riscv_csr_helper_dest vm.rv64 (vm.csr.tvec 1) 0 CsrOp.setbits).symm
  simp only [if_neg h3]
  by_cases h4 : c = CSR_SCOUNTEREN
  · simp only [if_pos h4]
    refine fun _ => ⟨by trivial, ?_⟩
    exact (riscv_csr_helper_masked_dest vm.rv64 (vm.csr.counteren 1) d CSR_COUNTEREN_MASK op).trans
      (riscv_csr_helper_masked_dest vm.rv64 (vm.csr.counteren 1) 0 CSR_COUNTEREN_MASK
        CsrOp.setbits).symm
  simp only [if_neg h4]
  by_cases h5 : c = CSR_SENVCFG
  · simp only [if_pos h5]
    refine fun _ => ⟨by trivial, ?_⟩
    exact (riscv_csr_helper_l_dest vm.rv64 (vm.csr.envcfg 1) d CSR_SENVCFG_MASK op).trans
      (riscv_csr_helper_l_dest vm.rv64 (vm.csr.envcfg 1) 0 CSR_SENVCFG_MASK
        CsrOp.setbits).symm
  simp only [if_neg h5]
  by_cases h6 : c = CSR_SSCRATCH
  · simp only [if_pos h6]
    refine fun _ => ⟨by trivial, ?_⟩
    exact (riscv_csr_helper_dest vm.rv64 (vm.csr.scratch 1) d op).trans
      (riscv_csr_helper_dest vm.rv64 (vm.csr.scratch 1) 0 CsrOp.setbits).symm
  simp only [if_neg h6]
  by_cases h7 : c = CSR_SEPC
  · simp only [if_pos h7]
    refine fun _ => ⟨by trivial, ?_⟩
    exact (riscv_csr_helper_dest vm.rv64 (vm.csr.epc 1) d op).trans
      (riscv_csr_helper_dest vm.rv64 (vm.csr.epc 1) 0 CsrOp.setbits).symm
  simp only [if_neg h7]
  by_cases h8 : c = CSR_SCAUSE
  · simp only [if_pos h8]
    refine fun _ => ⟨by trivial, ?_⟩
    exact (riscv_csr_helper_dest vm.rv64 (vm.csr.cause 1) d op).trans
      (riscv_csr_helper_dest vm.rv64 (vm.csr.cause 1) 0 CsrOp.setbits).symm
  simp only [if_neg h8]
  by_cases h9 : c = CSR_STVAL
  · simp only [if_pos h9]
    refine fun _ => ⟨by trivial, ?_⟩
    exact (riscv_csr_helper_dest vm.rv64 (vm.csr.tval 1) d op).trans
      (riscv_csr_helper_dest vm.rv64 (vm.csr.tval 1) 0 CsrOp.setbits).symm
  simp only [if_neg h9]
  by_cases h10 : c = CSR_SIP
  · simp only [if_pos h10]
    exact riscv_csr_ip_read vm d CSR_SEIP_MASK op
  simp only [if_neg h10]
  by_cases h11 : c = CSR_STIMECMP
  · simp only [if_pos h11]
    exact riscv_csr_stimecmp_read vm d op
  simp only [if_neg h11]
  by_cases h12 : c = CSR_STIMECMPH
  · simp only [if_pos h12]
    exact riscv_csr_stimecmph_read vm d op
  simp only [if_neg h12]
  by_cases h13 : c = CSR_SATP
  · simp only [if_pos h13]
    exact riscv_csr_satp_read vm d op
  simp only [if_neg h13]
  exact riscv_csr_op_internal_minfo_read vm c d op

/-- A successful riscv_csr_op_internal leaves in dest the value a pure
read (SETBITS of zero) of the same CSR would, and that read succeeds. -/
theorem riscv_csr_op_internal_read (vm : RvvmHart) (c d : Nat) (op : CsrOp) :
    (riscv_csr_op_internal vm c d op).2.2 = true →
      (riscv_csr_op_internal vm c 0 CsrOp.setbits).2.2 = true ∧
      (riscv_csr_op_internal vm c d op).2.1 =
        (riscv_csr_op_internal vm c 0 CsrOp.setbits).2.1 := by
  unfold riscv_csr_op_internal
  by_cases h1 : c = CSR_SEED
  · simp only [if_pos h1]
    exact riscv_csr_seed_read vm d
  simp only [if_neg h1]
  by_cases h2 : c = CSR_CYCLE
  · simp only [if_pos h2]
    exact fun _ => ⟨by trivial, by trivial⟩
  simp only [if_neg h2]
  by_cases h3 : c = CSR_CYCLEH
  · simp only [if_pos h3]
    exact riscv_csr_zero_h_read vm d
  simp only [if_neg h3]
  by_cases h4 : c = CSR_TIME
  · simp only [if_pos h4]
    exact riscv_csr_time_read vm d
  simp only [if_neg h4]
  by_cases h5 : c = CSR_TIMEH
  · simp only [if_pos h5]
    exact riscv_csr_timeh_read vm d
  simp only [if_neg h5]
  by_cases h6 : c = CSR_INSTRET
  · simp only [if_pos h6]
    exact fun _ => ⟨by trivial, by trivial⟩
  simp only [if_neg h6]
  by_cases h7 : c = CSR_INSTRETH
  · simp only [if_pos h7]
    exact riscv_csr_zero_h_read vm d
  simp only [if_neg h7]
  exact riscv_csr_op_internal_sup_read vm c d op

/-- Baseline concrete hart for witnesses and counterexamples: a 64-bit
machine-mode hart with zeroed CSRs and one live TLB entry. -/
def hart0 : RvvmHart :=
  { machine :=
      { rv64 := true, timer := 1000, rand16 := 0x1234,
        arg_sv48 := false, arg_sv57 := false, raised := 0 }
    rv64 := true
    priv_mode := 3
    mmu_mode := 0
    root_page_table := 0
    tlb := [7]
    stimecmp := 0
    wait_event := 1
    irq_check := false
    csr :=
      { status := 0, isa := CSR_MISA_RV64, ie := 0, ip := 0, mseccfg := 0,
        hartid := 0, fcsr := 0, edeleg := fun _ => 0, ideleg := fun _ => 0,
        tvec := fun _ => 0, scratch := fun _ => 0, epc := fun _ => 0,
        cause := fun _ => 0, tval := fun _ => 0, counteren := fun _ => 0,
        envcfg := fun _ => 0 } }

/-! ## Claim C1: the value riscv_csr_op leaves in v -/

/-- C1 (amended): when riscv_csr_op succeeds, v receives the value the
CSR held immediately before the operation, i.e. exactly what a pure
read (SETBITS of zero) of the same CSR from the same pre-state returns,
sign-extended to 32 bits when the hart is RV32 after the op; on
failure v is not set to that value (see the counterexample: it keeps
the caller's input). -/
theorem riscv_csr_op_returns_prior_value (vm : RvvmHart) (c v : Nat) (op : CsrOp)
    (hok : (riscv_csr_op vm c v op).2.2 = true) :
    (riscv_csr_op_internal vm c 0 CsrOp.setbits).2.2 = true ∧
    (riscv_csr_op vm c v op).2.1 =
      (if (riscv_csr_op vm c v op).1.rv64 then
        (riscv_csr_op_internal vm c 0 CsrOp.setbits).2.1
      else sext32 ((riscv_csr_op_internal vm c 0 CsrOp.setbits).2.1)) := by
  unfold riscv_csr_op at hok ⊢
  by_cases h1 : (riscv_csr_readonly c &&
      (decide (op = CsrOp.swap) || decide (v ≠ 0))) = true
  · rw [if_pos h1] at hok
    exact absurd hok (by simp)
  · rw [if_neg h1] at hok ⊢
    by_cases h2 : riscv_csr_privilege c > vm.priv_mode
    · rw [if_pos h2] at hok
      exact absurd hok (by simp)
    · rw [if_neg h2] at hok ⊢
      obtain ⟨rok, deq⟩ := riscv_csr_op_internal_read vm c v op hok
      refine ⟨rok, ?_⟩
      show (if (riscv_csr_op_internal vm c v op).1.rv64 = true then
          (riscv_csr_op_internal vm c v op).2.1
        else sext32 (riscv_csr_op_internal vm c v op).2.1) =
        (if (riscv_csr_op_internal vm c v op).1.rv64 = true then
          (riscv_csr_op_internal vm c 0 CsrOp.setbits).2.1
        else sext32 ((riscv_csr_op_internal vm c 0 CsrOp.setbits).2.1))
      rw [deq]

/-- C1 witness: a successful SWAP of mscratch on the concrete hart. -/
theorem riscv_csr_op_returns_prior_value_witness :
    (riscv_csr_op hart0 CSR_MSCRATCH 7 CsrOp.swap).2.2 = true ∧
    ((riscv_csr_op_internal hart0 CSR_MSCRATCH 0 CsrOp.setbits).2.2 = true ∧
      (riscv_csr_op hart0 CSR_MSCRATCH 7 CsrOp.swap).2.1 =
        (if (riscv_csr_op hart0 CSR_MSCRATCH 7 CsrOp.swap).1.rv64 then
          (riscv_csr_op_internal hart0 CSR_MSCRATCH 0 CsrOp.setbits).2.1
        else sext32 ((riscv_csr_op_internal hart0 CSR_MSCRATCH 0
          CsrOp.setbits).2.1))) :=
  ⟨by decide,
    riscv_csr_op_returns_prior_value hart0 CSR_MSCRATCH 7 CsrOp.swap (by decide)⟩

/-- C1 counterexample: a SWAP of 5 into the read-only mhartid fails and
leaves 5 in v, while the CSR held 0 (a pure read returns 0), so on a
failing op v does not receive the value the CSR held before the op. -/
theorem riscv_csr_op_failure_keeps_input :
    (riscv_csr_op hart0 CSR_MHARTID 5 CsrOp.swap).2.2 = false ∧
    (riscv_csr_op hart0 CSR_MHARTID 5 CsrOp.swap).2.1 = 5 ∧
    (riscv_csr_op hart0 CSR_MHARTID 0 CsrOp.setbits).2.2 = true ∧
    (riscv_csr_op hart0 CSR_MHARTID 0 CsrOp.setbits).2.1 = 0 := by
  decide

/-! ## Claim C6: satp writes -/

/-- The common tail of both riscv_csr_satp branches: the TLB of the
result is empty exactly when the flush condition held, and otherwise
the pre-state TLB. -/
theorem satp_flush_shape (vmPre vm2 : RvvmHart) (hpre : vm2.tlb = vmPre.tlb) :
    (if decide (vm2.mmu_mode ≠ 0) ≠ decide (vmPre.mmu_mode ≠ 0)
      then riscv_tlb_flush vm2 else vm2).tlb =
    (if decide ((if decide (vm2.mmu_mode ≠ 0) ≠ decide (vmPre.mmu_mode ≠ 0)
        then riscv_tlb_flush vm2 else vm2).mmu_mode ≠ 0) ≠
        decide (vmPre.mmu_mode ≠ 0) then ([] : List Nat) else vmPre.tlb) := by
  by_cases hC : decide (vm2.mmu_mode ≠ 0) ≠ decide (vmPre.mmu_mode ≠ 0)
  · rw [if_pos hC]
    show ([] : List Nat) =
      if decide (vm2.mmu_mode ≠ 0) ≠ decide (vmPre.mmu_mode ≠ 0)
      then ([] : List Nat) else vmPre.tlb
    rw [if_pos hC]
  · rw [if_neg hC]
    show vm2.tlb =
      if decide (vm2.mmu_mode ≠ 0) ≠ decide (vmPre.mmu_mode ≠ 0)
      then ([] : List Nat) else vmPre.tlb
    rw [if_neg hC]
    exact hpre

/-- C6: a satp write fails with no state change whenever STATUS.TVM is
set; when it succeeds, the TLB is flushed exactly when the write
changes the enabled/disabled status of paging (BARE versus any SV
mode). -/
theorem riscv_csr_satp_tvm_and_flush (vm : RvvmHart) (v : Nat) (op : CsrOp) :
    (vm.csr.status &&& CSR_STATUS_TVM ≠ 0 →
      riscv_csr_satp vm v op = (vm, v, false)) ∧
    ((riscv_csr_satp vm v op).2.2 = true →
      (riscv_csr_satp vm v op).1.tlb =
        (if decide ((riscv_csr_satp vm v op).1.mmu_mode ≠ 0) ≠
            decide (vm.mmu_mode ≠ 0) then ([] : List Nat) else vm.tlb)) := by
  constructor
  · intro hT
    unfold riscv_csr_satp
    rw [if_pos hT]
  · intro hok
    unfold riscv_csr_satp at hok ⊢
    by_cases hT : vm.csr.status &&& CSR_STATUS_TVM ≠ 0
    · rw [if_pos hT] at hok
      exact absurd hok (by simp)
    · rw [if_neg hT] at hok ⊢
      by_cases hrv : vm.rv64 = true
      · rw [if_pos hrv]
        unfold riscv_csr_satp64
        refine satp_flush_shape vm _ ?_
        rfl
      · rw [if_neg hrv]
        unfold riscv_csr_satp32
        refine satp_flush_shape vm _ ?_
        rfl

/-- C6 witness: on the concrete hart (TVM clear, paging off) a SWAP
writing SV39 with root page 1 succeeds and flushes the TLB. -/
theorem riscv_csr_satp_tvm_and_flush_witness :
    hart0.csr.status &&& CSR_STATUS_TVM = 0 ∧
    (riscv_csr_satp hart0 0x8000000000000001 CsrOp.swap).2.2 = true ∧
    ((hart0.csr.status &&& CSR_STATUS_TVM ≠ 0 →
        riscv_csr_satp hart0 0x8000000000000001 CsrOp.swap =
          (hart0, 0x8000000000000001, false)) ∧
      ((riscv_csr_satp hart0 0x8000000000000001 CsrOp.swap).2.2 = true →
        (riscv_csr_satp hart0 0x8000000000000001 CsrOp.swap).1.tlb =
          (if decide ((riscv_csr_satp hart0 0x8000000000000001
              CsrOp.swap).1.mmu_mode ≠ 0) ≠
              decide (hart0.mmu_mode ≠ 0) then ([] : List Nat)
            else hart0.tlb))) :=
  ⟨by decide, by decide,
    riscv_csr_satp_tvm_and_flush hart0 0x8000000000000001 CsrOp.swap⟩

/-! ## Claim C7: the read-only gate -/

/-- C7 (amended): for a read-only CSR id, riscv_csr_op succeeds exactly
when the op is not a SWAP, the value is zero, the privilege check
passes and the dispatch succeeds: a SWAP is rejected even when its
source value is zero, while SETBITS/CLEARBITS of zero pass the
read-only gate. -/
theorem riscv_csr_op_readonly_gate (vm : RvvmHart) (c v : Nat) (op : CsrOp)
    (hro : riscv_csr_readonly c = true) :
    (riscv_csr_op vm c v op).2.2 =
      (decide (op ≠ CsrOp.swap) && decide (v = 0) &&
        decide (riscv_csr_privilege c ≤ vm.priv_mode) &&
        (riscv_csr_op_internal vm c v op).2.2) := by
  unfold riscv_csr_op
  rw [hro]
  split_ifs with h1 h2
  · simp only [Bool.true_and, Bool.or_eq_true, decide_eq_true_eq] at h1
    rcases h1 with h | h <;> simp [h]
  · simp only [Bool.true_and, Bool.or_eq_true, decide_eq_true_eq] at h1
    push_neg at h1
    have hp : ¬ riscv_csr_privilege c ≤ vm.priv_mode := by omega
    simp [hp]
  · simp only [Bool.true_and, Bool.or_eq_true, decide_eq_true_eq] at h1
    push_neg at h1
    have hp : riscv_csr_privilege c ≤ vm.priv_mode := by omega
    simp [h1.1, h1.2, hp]

/-- C7 witness: at mcountinhibit (read-only upper bits would be 0x320,
so use a truly read-only id: mvendorid 0xF11) a CLEARBITS of zero
succeeds on the concrete hart. -/
theorem riscv_csr_op_readonly_gate_witness :
    riscv_csr_readonly CSR_MVENDORID = true ∧
    (riscv_csr_op hart0 CSR_MVENDORID 0 CsrOp.clearbits).2.2 =
      (decide (CsrOp.clearbits ≠ CsrOp.swap) && decide ((0 : Nat) = 0) &&
        decide (riscv_csr_privilege CSR_MVENDORID ≤ hart0.priv_mode) &&
        (riscv_csr_op_internal hart0 CSR_MVENDORID 0 CsrOp.clearbits).2.2) :=
  ⟨by decide,
    riscv_csr_op_readonly_gate hart0 CSR_MVENDORID 0 CsrOp.clearbits (by decide)⟩

/-- C7 counterexample: a SWAP whose source value is zero into the
read-only mhartid fails although it would write zero (the privilege
check passes and the dispatch itself succeeds, as the SETBITS run
shows), refuting "fails if and only if the operation would write a
non-zero value". -/
theorem riscv_csr_op_readonly_swap_zero_cex :
    riscv_csr_readonly CSR_MHARTID = true ∧
    riscv_csr_privilege CSR_MHARTID ≤ hart0.priv_mode ∧
    (riscv_csr_op hart0 CSR_MHARTID 0 CsrOp.swap).2.2 = false ∧
    (riscv_csr_op hart0 CSR_MHARTID 0 CsrOp.setbits).2.2 = true := by
  decide

/-! ## The JIT code cache (rvjit.c)

The block registry and link registry are hashmaps from physical PC;
they are embedded as functions (hashmap_get returns 0 / NULL for an
absent key).  The dirty/jited page bit matrices are the uint32 arrays
of the source, embedded as functions from the word index; the claims
are settled for the configuration with memtracking initialized
(dirty_pages != NULL). -/

structure RvjitHeap where
  /-- Block registry: physical PC to native code address, 0 if absent. -/
  blocks : Nat → Nat
  /-- Link registry: target physical PC to the pending patch sites. -/
  block_links : Nat → Option (List Nat)
  /-- Contents of the writable heap mapping. -/
  data : Nat → Nat
  size : Nat
  curr : Nat
  dirty_mask : Nat
  dirty_pages : Nat → Nat
  jited_pages : Nat → Nat

def LINKAGE_JMP : Nat := 1

/-- Modelled from the spec: the host register mask rvjit_emit_init
resets the register allocator to (rvjit_emit.h is not under src). -/
def RVJIT_HREG_MASK : Nat := 0xFFFF

structure RvjitBlock where
  heap : RvjitHeap
  size : Nat
  linkage : Nat
  links : List (Nat × Nat)
  /-- Register-allocator fields reset by rvjit_emit_init. -/
  hreg_mask : Nat
  abireclaim_mask : Nat

/-- rvjit_linker_cleanup: free every pending link list and clear the
link registry. -/
def rvjit_linker_cleanup (h : RvjitHeap) : RvjitHeap :=
  { h with block_links := fun _ => none }

/-- vma_clean: release the physical backing of the heap; the pages read
back as zero afterwards. -/
def vma_clean (h : RvjitHeap) : RvjitHeap :=
  { h with data := fun _ => 0 }

/-- Modelled from the spec: rvjit_emit_init resets the per-block emit
state (rvjit_emit.h is not under src). -/
def rvjit_emit_init (b : RvjitBlock) : RvjitBlock :=
  { b with hreg_mask := RVJIT_HREG_MASK, abireclaim_mask := 0 }

/-- rvjit_block_init: reset the emit buffer, the linkage kind and the
per-block link list. -/
def rvjit_block_init (b : RvjitBlock) : RvjitBlock :=
  rvjit_emit_init { b with size := 0, linkage := LINKAGE_JMP, links := [] }

/-- The (word index, bit mask) position of a physical address in the
dirty/jited bit matrices. -/
def rvjit_page_off (h : RvjitHeap) (addr : Nat) : Nat :=
  (addr >>> 17) &&& h.dirty_mask

def rvjit_page_bit (addr : Nat) : Nat :=
  1 <<< ((addr >>> 12) &&& 31)

/-- rvjit_mark_jited_page. -/
def rvjit_mark_jited_page (h : RvjitHeap) (addr : Nat) : RvjitHeap :=
  let off := rvjit_page_off h addr
  { h with jited_pages := (updF h.jited_pages off
      (h.jited_pages off ||| rvjit_page_bit addr)) }

/-- rvjit_mark_dirty_page: transfer the jited bit into the dirty bit. -/
def rvjit_mark_dirty_page (h : RvjitHeap) (addr : Nat) : RvjitHeap :=
  let off := rvjit_page_off h addr
  let mask := rvjit_page_bit addr
  if h.jited_pages off &&& mask ≠ 0 then
    { h with
      dirty_pages := updF h.dirty_pages off (h.dirty_pages off ||| mask)
      jited_pages := updF h.jited_pages off (h.jited_pages off &&& comp32 mask) }
  else h

/-- rvjit_mark_dirty_mem: `for (i = 0; i < size; i += 4096)`. -/
def rvjit_mark_dirty_mem (h : RvjitHeap) (addr size : Nat) : RvjitHeap :=
  if size = 0 then h
  else rvjit_mark_dirty_mem (rvjit_mark_dirty_page h addr) (addr + 4096) (size - 4096)
termination_by size
decreasing_by omega

/-- rvjit_page_needs_flush: test the dirty bit and atomically clear it;
returns whether the caller won the bit. -/
def rvjit_page_needs_flush (h : RvjitHeap) (addr : Nat) : Bool × RvjitHeap :=
  let off := rvjit_page_off h addr
  let mask := rvjit_page_bit addr
  if h.dirty_pages off &&& mask ≠ 0 then
    (true, { h with dirty_pages := (updF h.dirty_pages off
        (h.dirty_pages off &&& comp32 mask)) })
  else (false, h)

/-- The removal loop of rvjit_block_lookup: for each of the 4096
addresses of the page, drop the block entry and free and drop the
pending link list. -/
def rvjit_flush_page_entries (h : RvjitHeap) (base n : Nat) : RvjitHeap :=
  (List.range n).foldl (fun h i =>
    { h with
      blocks := updF h.blocks (base + i) 0
      block_links := fun j => if j = base + i then none else h.block_links j }) h

/-- rvjit_block_lookup: when the page won a pending dirty bit, remove
every entry of the page and miss; otherwise return the registered code
address (0 = null). -/
def rvjit_block_lookup (h : RvjitHeap) (phys_pc : Nat) : Nat × RvjitHeap :=
  let nf := rvjit_page_needs_flush h phys_pc
  if nf.1 then
    let base := phys_pc &&& comp64 0xFFF
    (0, rvjit_flush_page_entries nf.2 base 4096)
  else (h.blocks phys_pc, nf.2)

/-- rvjit_flush_cache: optionally release the heap backing, clear the
block and link registries, reset the cursor, zero the dirty bits and
re-init the current block. -/
def rvjit_flush_cache (b : RvjitBlock) : RvjitBlock :=
  let heap := if 0x10000 < b.heap.curr then vma_clean b.heap else b.heap
  let heap := { heap with blocks := fun _ => 0, curr := 0 }
  let heap := rvjit_linker_cleanup heap
  let heap := { heap with dirty_pages :=
    ((List.range (heap.dirty_mask + 1)).foldl (fun f i => updF f i 0)
      heap.dirty_pages) }
  rvjit_block_init { b with heap := heap }

/-- Pointwise value of the dirty-bit zeroing loop of rvjit_flush_cache. -/
theorem zeroFold_apply (f : Nat → Nat) (n j : Nat) :
    (List.range n).foldl (fun g i => updF g i 0) f j = if j < n then 0 else f j := by
  induction n with
  | zero => simp
  | succ n ih =>
    rw [List.range_succ, List.foldl_append, List.foldl_cons, List.foldl_nil]
    by_cases hj : j = n
    · simp [updF, hj]
    · simp only [updF, if_neg hj]
      rw [ih]
      split_ifs <;> first | rfl | omega

/-- C9: flush_cache is idempotent: two consecutive rvjit_flush_cache calls
leave the block and its heap exactly as one call does. -/
theorem rvjit_flush_cache_idem (b : RvjitBlock) :
    rvjit_flush_cache (rvjit_flush_cache b) = rvjit_flush_cache b := by
  simp only [rvjit_flush_cache, rvjit_block_init, rvjit_emit_init, rvjit_linker_cleanup,
    vma_clean]
  norm_num
  funext j
  rw [zeroFold_apply, zeroFold_apply]
  split_ifs <;> rfl

/-- A single-bit mask test is the corresponding testBit. -/
theorem and_shiftLeft_one_ne_zero (x b : Nat) :
    (x &&& (1 <<< b) ≠ 0) ↔ x.testBit b := by
  rw [Nat.shiftLeft_eq, one_mul, Nat.and_two_pow]
  cases hb : x.testBit b <;> simp [hb]

/-- rvjit_mark_dirty_page never changes the word-index mask. -/
theorem rvjit_mark_dirty_page_mask (h : RvjitHeap) (a : Nat) :
    (rvjit_mark_dirty_page h a).dirty_mask = h.dirty_mask := by
  unfold rvjit_mark_dirty_page
  dsimp only
  split <;> rfl

/-- rvjit_mark_dirty_page only ORs bits into the dirty matrix. -/
theorem rvjit_mark_dirty_page_mono (h : RvjitHeap) (a j b : Nat)
    (hb : (h.dirty_pages j).testBit b) :
    ((rvjit_mark_dirty_page h a).dirty_pages j).testBit b := by
  unfold rvjit_mark_dirty_page
  dsimp only
  split
  · dsimp only [updF]
    by_cases hj : j = rvjit_page_off h a
    · rw [if_pos hj, ← hj, Nat.testBit_or, hb]
      rfl
    · rw [if_neg hj]
      exact hb
  · exact hb

/-- When the jited bit of the page is set, rvjit_mark_dirty_page sets the
dirty bit of the page. -/
theorem rvjit_mark_dirty_page_sets (h : RvjitHeap) (a : Nat)
    (hj : h.jited_pages (rvjit_page_off h a) &&& rvjit_page_bit a ≠ 0) :
    ((rvjit_mark_dirty_page h a).dirty_pages (rvjit_page_off h a)).testBit
      ((a >>> 12) &&& 31) := by
  unfold rvjit_mark_dirty_page
  dsimp only
  rw [if_pos hj]
  dsimp only [updF]
  rw [if_pos rfl, Nat.testBit_or]
  have : (rvjit_page_bit a).testBit ((a >>> 12) &&& 31) = true := by
    unfold rvjit_page_bit
    rw [Nat.shiftLeft_eq, one_mul]
    exact Nat.testBit_two_pow_self
  rw [this, Bool.or_true]

/-- The whole mark_dirty_mem loop never changes the word-index mask. -/
theorem rvjit_mark_dirty_mem_mask (n : Nat) : ∀ (h : RvjitHeap) (a : Nat),
    (rvjit_mark_dirty_mem h a n).dirty_mask = h.dirty_mask := by
  induction n using Nat.strong_induction_on with
  | _ n ih =>
    intro h a
    rw [rvjit_mark_dirty_mem]
    by_cases hn : n = 0
    · rw [if_pos hn]
    · rw [if_neg hn, ih (n - 4096) (by omega), rvjit_mark_dirty_page_mask]

/-- The whole mark_dirty_mem loop only ORs bits into the dirty matrix. -/
theorem rvjit_mark_dirty_mem_mono (n : Nat) : ∀ (h : RvjitHeap) (a j b : Nat),
    (h.dirty_pages j).testBit b →
    ((rvjit_mark_dirty_mem h a n).dirty_pages j).testBit b := by
  induction n using Nat.strong_induction_on with
  | _ n ih =>
    intro h a j b hb
    rw [rvjit_mark_dirty_mem]
    by_cases hn : n = 0
    · rw [if_pos hn]
      exact hb
    · rw [if_neg hn]
      exact ih (n - 4096) (by omega) _ _ _ _ (rvjit_mark_dirty_page_mono h a j b hb)

/-- A nonempty mark_dirty_mem loop sets the dirty bit of the first page
whenever its jited bit is set. -/
theorem rvjit_mark_dirty_mem_sets (h : RvjitHeap) (a n : Nat) (hn : n ≠ 0)
    (hj : h.jited_pages (rvjit_page_off h a) &&& rvjit_page_bit a ≠ 0) :
    ((rvjit_mark_dirty_mem h a n).dirty_pages (rvjit_page_off h a)).testBit
      ((a >>> 12) &&& 31) := by
  rw [rvjit_mark_dirty_mem, if_neg hn]
  exact rvjit_mark_dirty_mem_mono (n - 4096) _ _ _ _
    (rvjit_mark_dirty_page_sets h a hj)

/-- Inside the flushed range, rvjit_flush_page_entries leaves no block
entry and no pending link list. -/
theorem rvjit_flush_page_entries_spec (h : RvjitHeap) (base n pc : Nat)
    (h1 : base ≤ pc) (h2 : pc < base + n) :
    (rvjit_flush_page_entries h base n).blocks pc = 0 ∧
    (rvjit_flush_page_entries h base n).block_links pc = none := by
  induction n with
  | zero => omega
  | succ n ih =>
    unfold rvjit_flush_page_entries at ih ⊢
    rw [List.range_succ, List.foldl_append, List.foldl_cons, List.foldl_nil]
    by_cases hpc : pc = base + n
    · constructor
      · dsimp only [updF]
        rw [if_pos hpc]
      · dsimp only
        rw [if_pos hpc]
    · have hlt : pc < base + n := by omega
      obtain ⟨ihb, ihl⟩ := ih hlt
      constructor
      · dsimp only [updF]
        rw [if_neg hpc]
        exact ihb
      · dsimp only
        rw [if_neg hpc]
        exact ihl

/-- A JIT heap with one registered block at physical PC 0x1000 (native
address 0xBEEF) and pages 0 and 1 marked jited. -/
def jitHeap0 : RvjitHeap :=
  { blocks := fun j => if j = 0x1000 then 0xBEEF else 0
    block_links := fun _ => none
    data := fun _ => 0
    size := 0x20000
    curr := 0
    dirty_mask := 0
    dirty_pages := fun _ => 0
    jited_pages := fun j => if j = 0 then 3 else 0 }

/-- A JIT heap with one registered block at physical PC 5 (native address
7) and page 0 marked jited. -/
def jitHeap1 : RvjitHeap :=
  { blocks := fun j => if j = 5 then 7 else 0
    block_links := fun _ => none
    data := fun _ => 0
    size := 0x20000
    curr := 0
    dirty_mask := 0
    dirty_pages := fun _ => 0
    jited_pages := fun j => if j = 0 then 1 else 0 }

/-- When the dirty bit of the page of a is set, rvjit_block_lookup misses
and removes the whole 4 KiB range of a. -/
theorem rvjit_block_lookup_flush (h : RvjitHeap) (a : Nat)
    (hc : h.dirty_pages (rvjit_page_off h a) &&& rvjit_page_bit a ≠ 0) :
    rvjit_block_lookup h a =
      (0, rvjit_flush_page_entries
        { h with dirty_pages := (updF h.dirty_pages (rvjit_page_off h a)
            (h.dirty_pages (rvjit_page_off h a) &&& comp32 (rvjit_page_bit a))) }
        (a &&& comp64 0xFFF) 4096) := by
  unfold rvjit_block_lookup rvjit_page_needs_flush
  dsimp only
  rw [if_pos hc]
  rfl

set_option maxRecDepth 4000 in
/-- C5 (amended): rvjit_mark_dirty_mem(h, p, n) samples the addresses
p + 4096*i with 4096*i < n; for the page of the first sampled address,
provided its jited bit is set, the first subsequent rvjit_block_lookup at
any address a of that page returns null and removes every block-registry
entry and every pending link list whose physical PC lies in the flushed
4 KiB range of a. -/
theorem rvjit_mark_dirty_then_lookup (h : RvjitHeap) (p n a : Nat)
    (hn : n ≠ 0)
    (hj : h.jited_pages (rvjit_page_off h p) &&& rvjit_page_bit p ≠ 0)
    (hpage : a >>> 12 = p >>> 12) :
    (rvjit_block_lookup (rvjit_mark_dirty_mem h p n) a).1 = 0 ∧
    (∀ pc, a &&& comp64 0xFFF ≤ pc → pc < (a &&& comp64 0xFFF) + 4096 →
      (rvjit_block_lookup (rvjit_mark_dirty_mem h p n) a).2.blocks pc = 0 ∧
      (rvjit_block_lookup (rvjit_mark_dirty_mem h p n) a).2.block_links pc = none) := by
  have hmask : (rvjit_mark_dirty_mem h p n).dirty_mask = h.dirty_mask :=
    rvjit_mark_dirty_mem_mask n h p
  have hshift : ∀ x : Nat, x >>> 17 = (x >>> 12) >>> 5 := by
    intro x
    rw [← Nat.shiftRight_add]
  have hoffa : rvjit_page_off (rvjit_mark_dirty_mem h p n) a = rvjit_page_off h p := by
    unfold rvjit_page_off
    rw [hmask, hshift a, hshift p, hpage]
  have hbita : rvjit_page_bit a = rvjit_page_bit p := by
    unfold rvjit_page_bit
    rw [hpage]
  have hbit : ((rvjit_mark_dirty_mem h p n).dirty_pages (rvjit_page_off h p)).testBit
      ((p >>> 12) &&& 31) := rvjit_mark_dirty_mem_sets h p n hn hj
  have hcond : (rvjit_mark_dirty_mem h p n).dirty_pages
      (rvjit_page_off (rvjit_mark_dirty_mem h p n) a) &&& rvjit_page_bit a ≠ 0 := by
    rw [hoffa, hbita]
    unfold rvjit_page_bit
    rw [and_shiftLeft_one_ne_zero]
    exact hbit
  rw [rvjit_block_lookup_flush (rvjit_mark_dirty_mem h p n) a hcond]
  dsimp only
  exact ⟨rfl, fun pc hlo hhi => rvjit_flush_page_entries_spec _ _ 4096 pc hlo hhi⟩

/-- Witness for C5 at a concrete heap: marking one byte at address 0
flushes page 0, so looking up PC 5 misses and clears the page. -/
theorem rvjit_mark_dirty_then_lookup_witness :
    ((1 : Nat) ≠ 0) ∧
    (jitHeap1.jited_pages (rvjit_page_off jitHeap1 0) &&& rvjit_page_bit 0 ≠ 0) ∧
    ((5 : Nat) >>> 12 = 0 >>> 12) ∧
    ((rvjit_block_lookup (rvjit_mark_dirty_mem jitHeap1 0 1) 5).1 = 0 ∧
      (∀ pc, 5 &&& comp64 0xFFF ≤ pc → pc < (5 &&& comp64 0xFFF) + 4096 →
        (rvjit_block_lookup (rvjit_mark_dirty_mem jitHeap1 0 1) 5).2.blocks pc = 0 ∧
        (rvjit_block_lookup (rvjit_mark_dirty_mem jitHeap1 0 1) 5).2.block_links pc = none)) :=
  ⟨by omega, by decide, by decide,
    rvjit_mark_dirty_then_lookup jitHeap1 0 1 5 (by omega) (by decide) (by decide)⟩

/-- Counterexample to C5 as claimed: the range [0xFFF, 0xFFF + 2)
intersects page 1 = [0x1000, 0x2000), yet after
rvjit_mark_dirty_mem(h, 0xFFF, 2) — which only samples address 0xFFF in
page 0 — the lookup at 0x1000 still returns the registered native
address 0xBEEF instead of null. -/
theorem rvjit_mark_dirty_mem_final_page_cex :
    (0xFFF : Nat) ≤ 0x1000 ∧ (0x1000 : Nat) < 0xFFF + 2 ∧
    (rvjit_block_lookup (rvjit_mark_dirty_mem jitHeap0 0xFFF 2) 0x1000).1 = 0xBEEF := by
  refine ⟨by omega, by omega, ?_⟩
  rw [rvjit_mark_dirty_mem, if_neg (by omega), rvjit_mark_dirty_mem, if_pos (by omega)]
  decide

/- ===== main.c =====
Command-line strings are embedded as NUL-free lists of byte values
(0x2D is the dash, 0x3D the equals sign); reading one position past the
end of a C string yields its NUL terminator, modelled by chr0. -/

/-- C indexing s[0]: the first byte, or the NUL terminator 0 when the
string is exhausted. -/
def chr0 (s : List Nat) : Nat := s.headD 0

def mem_suffix_shift (c : Nat) : Nat :=
  if c = 0x6B then 10
  else if c = 0x4B then 10
  else if c = 0x4D then 20
  else if c = 0x47 then 30
  else 0

/-- cmp_arg: compare arg against name until the end of arg or an equals
sign; positions past the end of name read as the NUL terminator. -/
def cmp_arg : List Nat → List Nat → Bool
  | [], _ => true
  | c :: cs, ns =>
    if c = 0x3D then true
    else match ns with
      | [] => false
      | d :: ds => if c = d then cmp_arg cs ds else false

def atoi_loop : List Nat → Nat → Nat
  | [], acc => acc
  | c :: cs, acc =>
    if 0x30 ≤ c ∧ c ≤ 0x39 then atoi_loop cs (acc * 10 + (c - 0x30)) else acc

/-- Modelled from the spec: atoi of libc, on the digit strings the
options take (no sign or leading-space handling). -/
def atoi (s : List Nat) : Nat := atoi_loop s 0

def dtbS : List Nat := [0x64, 0x74, 0x62]

def imageS : List Nat := [0x69, 0x6D, 0x61, 0x67, 0x65]

def bootromS : List Nat := [0x62, 0x6F, 0x6F, 0x74, 0x72, 0x6F, 0x6D]

def kernelS : List Nat := [0x6B, 0x65, 0x72, 0x6E, 0x65, 0x6C]

def memS : List Nat := [0x6D, 0x65, 0x6D]

def smpS : List Nat := [0x73, 0x6D, 0x70]

def rv64S : List Nat := [0x72, 0x76, 0x36, 0x34]

def verboseS : List Nat := [0x76, 0x65, 0x72, 0x62, 0x6F, 0x73, 0x65]

def helpS : List Nat := [0x68, 0x65, 0x6C, 0x70]

def hS : List Nat := [0x68]

def HS : List Nat := [0x48]

structure VmArgs where
  bootrom : Option (List Nat)
  kernel : Option (List Nat)
  dtb : Option (List Nat)
  image : Option (List Nat)
  mem : Nat
  smp : Nat
  rv64 : Bool

/-- main zero-initializes vm_args_t. -/
def vmArgsInit : VmArgs :=
  { bootrom := none, kernel := none, dtb := none, image := none,
    mem := 0, smp := 0, rv64 := false }

/-- The suffix of the first argument after its first equals sign, if
any. -/
def afterEq : List Nat → Option (List Nat)
  | [] => none
  | c :: cs => if c = 0x3D then some cs else afterEq cs

/-- get_arg on argv[0] and argv[1] (none = NULL): returns the argument
name (the rest of argv[0] after the dashes, equals sign included), the
value, and how many argv cells were consumed. -/
def get_arg (a0 : List Nat) (a1 : Option (List Nat)) : List Nat × List Nat × Nat :=
  if chr0 a0 = 0x2D then
    let off := if chr0 (a0.drop 1) = 0x2D then 2 else 1
    let nm := a0.drop off
    match afterEq nm with
    | some v => (nm, v, 1)
    | none =>
      match a1 with
      | none => (nm, [], 1)
      | some v1 => if chr0 v1 = 0x2D then (nm, [], 1) else (nm, v1, 2)
  else (bootromS, a0, 1)

/-- One iteration of the parse_args option chain: false in the first
component means parse_args returns false right away (smp out of range,
help, or an unknown option). -/
def parse_dispatch (acc : VmArgs) (nm v : List Nat) : Bool × VmArgs :=
  if cmp_arg nm dtbS then (true, { acc with dtb := some v })
  else if cmp_arg nm imageS then (true, { acc with image := some v })
  else if cmp_arg nm bootromS then (true, { acc with bootrom := some v })
  else if cmp_arg nm kernelS then (true, { acc with kernel := some v })
  else if cmp_arg nm memS then
    (true, if chr0 nm ≠ 0 then
      { acc with mem := (atoi v <<< mem_suffix_shift (v.getLastD 0)) % 2 ^ 64 }
    else acc)
  else if cmp_arg nm smpS then
    (if 1024 < atoi v then false else true, { acc with smp := atoi v })
  else if cmp_arg nm rv64S then (true, { acc with rv64 := true })
  else if cmp_arg nm verboseS then (true, acc)
  else if cmp_arg nm helpS then (false, acc)
  else if cmp_arg nm hS then (false, acc)
  else if cmp_arg nm HS then (false, acc)
  else (false, acc)

/-- The parse_args loop over argv[1..]; get_arg consumes one or two
cells per iteration. -/
def parse_args_go : List (List Nat) → VmArgs → Bool × VmArgs
  | [], acc => (true, acc)
  | [a0], acc =>
    let g := get_arg a0 none
    parse_dispatch acc g.1 g.2.1
  | a0 :: a1 :: rest, acc =>
    let g := get_arg a0 (some a1)
    let d := parse_dispatch acc g.1 g.2.1
    if d.1 then
      if g.2.2 = 2 then parse_args_go rest d.2
      else parse_args_go (a1 :: rest) d.2
    else (false, d.2)

/-- parse_args: defaults smp = 1 and mem = 256M, then the option loop. -/
def parse_args (argv : List (List Nat)) : Bool × VmArgs :=
  parse_args_go (argv.drop 1) { vmArgsInit with smp := 1, mem := 256 <<< 20 }

/-- rvvm_run_with_args. rvvm_create_machine and load_file_to_ram call
into code outside src, so the success of VM creation, of the bootrom
load and of the DTB load are oracle parameters (Modelled from the
spec). -/
def rvvm_run_with_args (args : VmArgs) (create_ok bootrom_ok dtb_ok : Bool) : Nat :=
  if create_ok = false then 1
  else if bootrom_ok = false then 1
  else if args.dtb.isSome && dtb_ok = false then 1
  else 0

/-- main: every return statement is `return 0`; the result of
rvvm_run_with_args is discarded. -/
def main (argv : List (List Nat)) (create_ok bootrom_ok dtb_ok : Bool) : Nat :=
  let r := parse_args argv
  if r.1 = false then 0
  else if r.2.bootrom = none then 0
  else
    let _ret := rvvm_run_with_args r.2 create_ok bootrom_ok dtb_ok
    0

/-- argv "rvvm" "-foo". -/
def argvFoo : List (List Nat) := [[0x72, 0x76, 0x76, 0x6D], [0x2D, 0x66, 0x6F, 0x6F]]

/-- argv "rvvm" "rom". -/
def argvRom : List (List Nat) := [[0x72, 0x76, 0x76, 0x6D], [0x72, 0x6F, 0x6D]]

/-- C10 (amended): the process exit code is 0 on every path — parse
failure (unknown options and -help included), missing bootrom, and every
rvvm_run_with_args outcome, whose result main discards;
rvvm_run_with_args itself computes 1 on VM-creation failure and on
bootrom-load failure. -/
theorem main_exit_codes (argv : List (List Nat)) (co bo dk : Bool) (args : VmArgs) :
    main argv co bo dk = 0 ∧
    rvvm_run_with_args args false bo dk = 1 ∧
    rvvm_run_with_args args true false dk = 1 := by
  refine ⟨?_, by simp [rvvm_run_with_args], by simp [rvvm_run_with_args]⟩
  unfold main
  dsimp only
  split_ifs <;> rfl

/-- Counterexample to C10 as claimed: the unknown option -foo makes the
parser fail, yet the process exits 0; and with a bootrom argument and a
failing VM creation, rvvm_run_with_args computes 1, yet the process
exits 0. -/
theorem main_exit_codes_cex :
    (parse_args argvFoo).1 = false ∧ main argvFoo true true true = 0 ∧
    rvvm_run_with_args (parse_args argvRom).2 false true true = 1 ∧
    main argvRom false true true = 0 := by decide



end RVVM
